import Mathlib

/-!
Verification of the drmdecrypt repository.

The development shallowly embeds the two core source files:

* `src/AESNI.c` — the hardware-path AES cipher engine.  The AES-NI
  intrinsics (`_mm_aesenc_si128`, `_mm_aesdec_si128`, `_mm_aesenclast_si128`,
  `_mm_aesdeclast_si128`, `_mm_aesimc_si128`, `_mm_aeskeygenassist_si128`,
  byte shifts and dword shuffles) are modelled by their architecturally
  defined semantics: the AES round transformations SubBytes, ShiftRows,
  MixColumns, their inverses, and AddRoundKey over 128-bit states of
  sixteen bytes.

* `src/drmdecrypt.c` — key extraction from the .mdb container, transport
  stream packet decoding, stream synchronization and the per-recording
  processing loop of `main`.

Machine integers are embedded as `Nat` with explicit reduction mod 256
where the hardware operates on bytes; the C `int` arithmetic that can go
negative (the decrypt-length computation) is embedded as `Int` with
truncating division `Int.tdiv` / `Int.tmod`, matching C99 semantics.
-/

namespace Drm

/-! ### GF(2^8) byte arithmetic

Semantics of the byte-level AES operations used by the AES-NI round
instructions.  Every function reduces its argument mod 256 (the hardware
domain is 8-bit lanes), which makes the linearity lemmas unconditional. -/

/-- Multiplication by x in GF(2^8) mod the AES polynomial x^8+x^4+x^3+x+1
(the AES `xtime` map), on a byte. -/
def xtime (x : Nat) : Nat := (2 * x) % 256 ^^^ (if x.testBit 7 then 27 else 0)

/-- GF(2^8) multiplication by 2. -/
def mul2 (x : Nat) : Nat := xtime x

/-- GF(2^8) multiplication by 3 = 2 + 1. -/
def mul3 (x : Nat) : Nat := xtime x ^^^ x % 256

/-- GF(2^8) multiplication by 9 = 8 + 1. -/
def mul9 (x : Nat) : Nat := xtime (xtime (xtime x)) ^^^ x % 256

/-- GF(2^8) multiplication by 11 = 8 + 2 + 1. -/
def mul11 (x : Nat) : Nat := xtime (xtime (xtime x)) ^^^ xtime x ^^^ x % 256

/-- GF(2^8) multiplication by 13 = 8 + 4 + 1. -/
def mul13 (x : Nat) : Nat := xtime (xtime (xtime x)) ^^^ xtime (xtime x) ^^^ x % 256

/-- GF(2^8) multiplication by 14 = 8 + 4 + 2. -/
def mul14 (x : Nat) : Nat := xtime (xtime (xtime x)) ^^^ xtime (xtime x) ^^^ xtime x

/-- The AES S-box, the fixed byte substitution applied by the AES-NI round
instructions: the 256 bytes of the FIPS-197 table, packed into one natural
number with table entry `i` stored as the byte at bit offset `8*i`. -/
def sboxTable : Nat :=
  0x16bb54b00f2d99416842e6bf0d89a18cdf2855cee9871e9b948ed9691198f8e19e1dc186b95735610ef6034866b53e708a8bbd4b1f74dde8c6b4a61c2e2578ba08ae7a65eaf4566ca94ed58d6d37c8e779e4959162acd3c25c2406490a3a32e0db0b5ede14b8ee4688902a22dc4f816073195d643d7ea7c41744975fec130ccdd2f3ff1021dab6bcf5389d928f40a351a89f3c507f02f94585334d43fbaaefd0cf584c4a39becb6a5bb1fc20ed00d153842fe329b3d63b52a05a6e1b1a2c830975b227ebe28012079a059618c323c7041531d871f1e5a534ccf73f362693fdb7c072a49cafa2d4adf04759fa7dc982ca76abd7fe2b670130c56f6bf27b777c63

/-- The inverse AES S-box, packed the same way. -/
def invSboxTable : Nat :=
  0x7d0c2155631469e126d677ba7e042b17619953833cbbebc8b0f52aae4d3be0a0ef9cc9939f7ae52d0d4ab519a97f51605fec8027591012b131c7078833a8dd1ff45acd78fec0db9a2079d2c64b3e56fc1bbe18aa0e62b76f89c5291d711af1476edf751ce837f9e28535ade72274ac9673e6b4f0cecff297eadc674f4111913a6b8a130103bdafc1020f3fca8f1e2cd00645b3b80558e4f70ad3bc8c00abd890849d8da75746155edab9edfd5048706c92b6655dcc5ca4d41698688664f6f87225d18b6d49a25b76b224d92866a12e084ec3fa420b954cee3d23c2a632947b54cbe9dec444438e3487ff2f9b8239e37cfbd7f3819ea340bf38a53630d56a0952

/-- S-box applied to a byte. -/
def sbox (x : Nat) : Nat := (sboxTable >>> (8 * (x % 256))) % 256

/-- Inverse S-box applied to a byte. -/
def invSbox (x : Nat) : Nat := (invSboxTable >>> (8 * (x % 256))) % 256


/-! ### Byte-level lemmas

Proofs in this section stay within the core `Nat`/`Bool` lemma library:
xor facts are derived through `Nat.testBit` extensionality, the byte bound
through truncation, and the 256-point byte identities through an explicit
bounded Boolean scan evaluated by reduction. -/

theorem xor_left_comm_nat (a b c : Nat) : a ^^^ (b ^^^ c) = b ^^^ (a ^^^ c) := by
  rw [← Nat.xor_assoc, Nat.xor_comm a b, Nat.xor_assoc]

instance : Std.Associative (α := Nat) (· ^^^ ·) := ⟨Nat.xor_assoc⟩

instance : Std.Commutative (α := Nat) (· ^^^ ·) := ⟨Nat.xor_comm⟩

theorem two_mul_xor (a b : Nat) : 2 * (a ^^^ b) = 2 * a ^^^ 2 * b := by
  have h : ∀ y : Nat, 2 * y = y <<< 1 := fun y => by
    rw [Nat.shiftLeft_eq, Nat.pow_one, Nat.mul_comm]
  rw [h, h, h]
  apply Nat.eq_of_testBit_eq
  intro i
  simp only [Nat.testBit_shiftLeft, Nat.testBit_xor]
  cases hd : decide (i ≥ 1)
  · rfl
  · rw [Bool.true_and, Bool.true_and, Bool.true_and]

theorem mod256_xor (a b : Nat) : (a ^^^ b) % 256 = a % 256 ^^^ b % 256 := by
  apply Nat.eq_of_testBit_eq
  intro i
  show ((a ^^^ b) % 2 ^ 8).testBit i = ((a % 2 ^ 8) ^^^ (b % 2 ^ 8)).testBit i
  simp only [Nat.testBit_mod_two_pow, Nat.testBit_xor]
  cases hd : decide (i < 8)
  · rfl
  · rw [Bool.true_and, Bool.true_and, Bool.true_and]

theorem xor8 {a b : Nat} (ha : a < 256) (hb : b < 256) : a ^^^ b < 256 := by
  have h : (a ^^^ b) % 256 = a ^^^ b := by
    rw [mod256_xor, Nat.mod_eq_of_lt ha, Nat.mod_eq_of_lt hb]
  rw [← h]
  exact Nat.mod_lt _ (by decide)

theorem mod256_lt (x : Nat) : x % 256 < 256 := Nat.mod_lt _ (by decide)

theorem xtime_lt (x : Nat) : xtime x < 256 := by
  unfold xtime
  apply xor8 (Nat.mod_lt _ (by decide))
  split <;> decide

theorem mul2_lt (x : Nat) : mul2 x < 256 := xtime_lt x
theorem mul3_lt (x : Nat) : mul3 x < 256 := xor8 (xtime_lt x) (mod256_lt x)
theorem mul9_lt (x : Nat) : mul9 x < 256 := xor8 (xtime_lt _) (mod256_lt x)
theorem mul11_lt (x : Nat) : mul11 x < 256 :=
  xor8 (xor8 (xtime_lt _) (xtime_lt _)) (mod256_lt x)
theorem mul13_lt (x : Nat) : mul13 x < 256 :=
  xor8 (xor8 (xtime_lt _) (xtime_lt _)) (mod256_lt x)
theorem mul14_lt (x : Nat) : mul14 x < 256 :=
  xor8 (xor8 (xtime_lt _) (xtime_lt _)) (xtime_lt _)

theorem xtime_xor_core (A B : Nat) (u v : Bool) :
    (A ^^^ B) ^^^ (if (u ^^ v) = true then 27 else 0) =
      (A ^^^ (if u = true then 27 else 0)) ^^^ (B ^^^ (if v = true then 27 else 0)) := by
  cases u <;> cases v
  · show A ^^^ B ^^^ 0 = (A ^^^ 0) ^^^ (B ^^^ 0)
    rw [Nat.xor_zero, Nat.xor_zero, Nat.xor_zero]
  · show A ^^^ B ^^^ 27 = (A ^^^ 0) ^^^ (B ^^^ 27)
    rw [Nat.xor_zero, Nat.xor_assoc]
  · show A ^^^ B ^^^ 27 = (A ^^^ 27) ^^^ (B ^^^ 0)
    rw [Nat.xor_zero, Nat.xor_assoc, Nat.xor_assoc, Nat.xor_comm B 27]
  · show A ^^^ B ^^^ 0 = (A ^^^ 27) ^^^ (B ^^^ 27)
    rw [Nat.xor_zero, Nat.xor_assoc, ← Nat.xor_assoc 27 B 27, Nat.xor_comm 27 B,
      Nat.xor_assoc B 27 27, Nat.xor_self, Nat.xor_zero]

theorem xtime_xor (a b : Nat) : xtime (a ^^^ b) = xtime a ^^^ xtime b := by
  unfold xtime
  rw [two_mul_xor, mod256_xor, Nat.testBit_xor]
  exact xtime_xor_core ((2 * a) % 256) ((2 * b) % 256) (a.testBit 7) (b.testBit 7)

theorem mul3_xor (a b : Nat) : mul3 (a ^^^ b) = mul3 a ^^^ mul3 b := by
  unfold mul3
  rw [xtime_xor, mod256_xor]
  ac_rfl

theorem mul9_xor (a b : Nat) : mul9 (a ^^^ b) = mul9 a ^^^ mul9 b := by
  unfold mul9
  rw [xtime_xor, xtime_xor, xtime_xor, mod256_xor]
  ac_rfl

theorem mul11_xor (a b : Nat) : mul11 (a ^^^ b) = mul11 a ^^^ mul11 b := by
  unfold mul11
  rw [xtime_xor, xtime_xor, xtime_xor, mod256_xor]
  ac_rfl

theorem mul13_xor (a b : Nat) : mul13 (a ^^^ b) = mul13 a ^^^ mul13 b := by
  unfold mul13
  rw [xtime_xor, xtime_xor, xtime_xor, mod256_xor]
  ac_rfl

theorem mul14_xor (a b : Nat) : mul14 (a ^^^ b) = mul14 a ^^^ mul14 b := by
  unfold mul14
  rw [xtime_xor, xtime_xor, xtime_xor]
  ac_rfl

/-! ### Finite byte checks

A bounded Boolean scan over an initial segment of the naturals; evaluating
it by reduction turns each finite family of byte identities into a single
closed computation. -/

def checkAll (f : Nat → Bool) : Nat → Bool
  | 0 => true
  | n + 1 => f n && checkAll f n

theorem checkAll_spec (f : Nat → Bool) :
    ∀ n, checkAll f n = true → ∀ i, i < n → f i = true := by
  intro n
  induction n with
  | zero => intro _ i hi; exact absurd hi (Nat.not_lt_zero i)
  | succ m ih =>
    intro h i hi
    have h2 : (f m && checkAll f m) = true := h
    rw [Bool.and_eq_true] at h2
    by_cases him : i = m
    · rw [him]; exact h2.1
    · exact ih h2.2 i (Nat.lt_of_le_of_ne (Nat.lt_succ_iff.mp hi) him)

/-! ### S-box lemmas -/

theorem sbox_lt (x : Nat) : sbox x < 256 := by
  unfold sbox
  exact Nat.mod_lt _ (by decide)

theorem invSbox_lt (x : Nat) : invSbox x < 256 := by
  unfold invSbox
  exact Nat.mod_lt _ (by decide)

/-- Spot checks anchoring the packed tables to the FIPS-197 values. -/
theorem sbox_spot_checks :
    sbox 0x00 = 0x63 ∧ sbox 0x01 = 0x7c ∧ sbox 0x53 = 0xed ∧ sbox 0xff = 0x16 ∧
    invSbox 0x63 = 0x00 ∧ invSbox 0x7c = 0x01 ∧ invSbox 0xed = 0x53 ∧
    invSbox 0x16 = 0xff := by
  decide

set_option maxRecDepth 10000 in
theorem invSbox_sbox (x : Nat) (h : x < 256) : invSbox (sbox x) = x :=
  of_decide_eq_true (checkAll_spec
    (fun y => decide (invSbox (sbox y) = y)) 256 rfl x h)

/-! ### Inverse-MixColumns times MixColumns byte identities

For each position of a MixColumns input column, the byte contributed to
the four outputs of InvMixColumns composed with MixColumns.  These sixteen
GF(2^8) identities are finite byte facts, checked by evaluation. -/

set_option maxRecDepth 10000 in
theorem imcGroupA : ∀ x : Nat, x < 256 →
    mul14 (mul2 x) ^^^ mul11 x ^^^ mul13 x ^^^ mul9 (mul3 x) = x ∧
    mul9 (mul2 x) ^^^ mul14 x ^^^ mul11 x ^^^ mul13 (mul3 x) = 0 ∧
    mul13 (mul2 x) ^^^ mul9 x ^^^ mul14 x ^^^ mul11 (mul3 x) = 0 ∧
    mul11 (mul2 x) ^^^ mul13 x ^^^ mul9 x ^^^ mul14 (mul3 x) = 0 := fun x hx =>
  of_decide_eq_true (checkAll_spec
    (fun y => decide
      (mul14 (mul2 y) ^^^ mul11 y ^^^ mul13 y ^^^ mul9 (mul3 y) = y ∧
       mul9 (mul2 y) ^^^ mul14 y ^^^ mul11 y ^^^ mul13 (mul3 y) = 0 ∧
       mul13 (mul2 y) ^^^ mul9 y ^^^ mul14 y ^^^ mul11 (mul3 y) = 0 ∧
       mul11 (mul2 y) ^^^ mul13 y ^^^ mul9 y ^^^ mul14 (mul3 y) = 0))
    256 rfl x hx)

set_option maxRecDepth 10000 in
theorem imcGroupB : ∀ x : Nat, x < 256 →
    mul14 (mul3 x) ^^^ mul11 (mul2 x) ^^^ mul13 x ^^^ mul9 x = 0 ∧
    mul9 (mul3 x) ^^^ mul14 (mul2 x) ^^^ mul11 x ^^^ mul13 x = x ∧
    mul13 (mul3 x) ^^^ mul9 (mul2 x) ^^^ mul14 x ^^^ mul11 x = 0 ∧
    mul11 (mul3 x) ^^^ mul13 (mul2 x) ^^^ mul9 x ^^^ mul14 x = 0 := fun x hx =>
  of_decide_eq_true (checkAll_spec
    (fun y => decide
      (mul14 (mul3 y) ^^^ mul11 (mul2 y) ^^^ mul13 y ^^^ mul9 y = 0 ∧
       mul9 (mul3 y) ^^^ mul14 (mul2 y) ^^^ mul11 y ^^^ mul13 y = y ∧
       mul13 (mul3 y) ^^^ mul9 (mul2 y) ^^^ mul14 y ^^^ mul11 y = 0 ∧
       mul11 (mul3 y) ^^^ mul13 (mul2 y) ^^^ mul9 y ^^^ mul14 y = 0))
    256 rfl x hx)

set_option maxRecDepth 10000 in
theorem imcGroupC : ∀ x : Nat, x < 256 →
    mul14 x ^^^ mul11 (mul3 x) ^^^ mul13 (mul2 x) ^^^ mul9 x = 0 ∧
    mul9 x ^^^ mul14 (mul3 x) ^^^ mul11 (mul2 x) ^^^ mul13 x = 0 ∧
    mul13 x ^^^ mul9 (mul3 x) ^^^ mul14 (mul2 x) ^^^ mul11 x = x ∧
    mul11 x ^^^ mul13 (mul3 x) ^^^ mul9 (mul2 x) ^^^ mul14 x = 0 := fun x hx =>
  of_decide_eq_true (checkAll_spec
    (fun y => decide
      (mul14 y ^^^ mul11 (mul3 y) ^^^ mul13 (mul2 y) ^^^ mul9 y = 0 ∧
       mul9 y ^^^ mul14 (mul3 y) ^^^ mul11 (mul2 y) ^^^ mul13 y = 0 ∧
       mul13 y ^^^ mul9 (mul3 y) ^^^ mul14 (mul2 y) ^^^ mul11 y = y ∧
       mul11 y ^^^ mul13 (mul3 y) ^^^ mul9 (mul2 y) ^^^ mul14 y = 0))
    256 rfl x hx)

set_option maxRecDepth 10000 in
theorem imcGroupD : ∀ x : Nat, x < 256 →
    mul14 x ^^^ mul11 x ^^^ mul13 (mul3 x) ^^^ mul9 (mul2 x) = 0 ∧
    mul9 x ^^^ mul14 x ^^^ mul11 (mul3 x) ^^^ mul13 (mul2 x) = 0 ∧
    mul13 x ^^^ mul9 x ^^^ mul14 (mul3 x) ^^^ mul11 (mul2 x) = 0 ∧
    mul11 x ^^^ mul13 x ^^^ mul9 (mul3 x) ^^^ mul14 (mul2 x) = x := fun x hx =>
  of_decide_eq_true (checkAll_spec
    (fun y => decide
      (mul14 y ^^^ mul11 y ^^^ mul13 (mul3 y) ^^^ mul9 (mul2 y) = 0 ∧
       mul9 y ^^^ mul14 y ^^^ mul11 (mul3 y) ^^^ mul13 (mul2 y) = 0 ∧
       mul13 y ^^^ mul9 y ^^^ mul14 (mul3 y) ^^^ mul11 (mul2 y) = 0 ∧
       mul11 y ^^^ mul13 y ^^^ mul9 (mul3 y) ^^^ mul14 (mul2 y) = y))
    256 rfl x hx)


/-! ### 128-bit states

A `Block` is the sixteen-byte content of an `__m128i` value, `b0` the least
significant byte (the first byte in memory on the little-endian target). -/

structure Block where
  b0 : Nat
  b1 : Nat
  b2 : Nat
  b3 : Nat
  b4 : Nat
  b5 : Nat
  b6 : Nat
  b7 : Nat
  b8 : Nat
  b9 : Nat
  b10 : Nat
  b11 : Nat
  b12 : Nat
  b13 : Nat
  b14 : Nat
  b15 : Nat
deriving DecidableEq

/-- The all-zero state. -/
def zeroB : Block := ⟨0, 0, 0, 0, 0, 0, 0, 0, 0, 0, 0, 0, 0, 0, 0, 0⟩

/-- All sixteen bytes of the state are in range. -/
def Ok (s : Block) : Prop :=
  s.b0 < 256 ∧ s.b1 < 256 ∧ s.b2 < 256 ∧ s.b3 < 256 ∧
  s.b4 < 256 ∧ s.b5 < 256 ∧ s.b6 < 256 ∧ s.b7 < 256 ∧
  s.b8 < 256 ∧ s.b9 < 256 ∧ s.b10 < 256 ∧ s.b11 < 256 ∧
  s.b12 < 256 ∧ s.b13 < 256 ∧ s.b14 < 256 ∧ s.b15 < 256

instance (s : Block) : Decidable (Ok s) := by unfold Ok; infer_instance

/-- Bytewise xor of two states (`_mm_xor_si128`), each byte reduced to the
8-bit hardware domain. -/
def xorB (a b : Block) : Block :=
  ⟨(a.b0 ^^^ b.b0) % 256, (a.b1 ^^^ b.b1) % 256, (a.b2 ^^^ b.b2) % 256,
   (a.b3 ^^^ b.b3) % 256, (a.b4 ^^^ b.b4) % 256, (a.b5 ^^^ b.b5) % 256,
   (a.b6 ^^^ b.b6) % 256, (a.b7 ^^^ b.b7) % 256, (a.b8 ^^^ b.b8) % 256,
   (a.b9 ^^^ b.b9) % 256, (a.b10 ^^^ b.b10) % 256, (a.b11 ^^^ b.b11) % 256,
   (a.b12 ^^^ b.b12) % 256, (a.b13 ^^^ b.b13) % 256, (a.b14 ^^^ b.b14) % 256,
   (a.b15 ^^^ b.b15) % 256⟩

/-- AES SubBytes: the S-box applied to every byte of the state. -/
def subBytes (s : Block) : Block :=
  ⟨sbox s.b0, sbox s.b1, sbox s.b2, sbox s.b3,
   sbox s.b4, sbox s.b5, sbox s.b6, sbox s.b7,
   sbox s.b8, sbox s.b9, sbox s.b10, sbox s.b11,
   sbox s.b12, sbox s.b13, sbox s.b14, sbox s.b15⟩

/-- AES InvSubBytes. -/
def invSubBytes (s : Block) : Block :=
  ⟨invSbox s.b0, invSbox s.b1, invSbox s.b2, invSbox s.b3,
   invSbox s.b4, invSbox s.b5, invSbox s.b6, invSbox s.b7,
   invSbox s.b8, invSbox s.b9, invSbox s.b10, invSbox s.b11,
   invSbox s.b12, invSbox s.b13, invSbox s.b14, invSbox s.b15⟩

/-- AES ShiftRows on the byte layout `index = 4*column + row`. -/
def shiftRows (s : Block) : Block :=
  ⟨s.b0, s.b5, s.b10, s.b15,
   s.b4, s.b9, s.b14, s.b3,
   s.b8, s.b13, s.b2, s.b7,
   s.b12, s.b1, s.b6, s.b11⟩

/-- AES InvShiftRows. -/
def invShiftRows (s : Block) : Block :=
  ⟨s.b0, s.b13, s.b10, s.b7,
   s.b4, s.b1, s.b14, s.b11,
   s.b8, s.b5, s.b2, s.b15,
   s.b12, s.b9, s.b6, s.b3⟩

/-- Row 0 of a MixColumns output column. -/
def mcr0 (a b c d : Nat) : Nat := mul2 a ^^^ mul3 b ^^^ c % 256 ^^^ d % 256

/-- Row 1 of a MixColumns output column. -/
def mcr1 (a b c d : Nat) : Nat := a % 256 ^^^ mul2 b ^^^ mul3 c ^^^ d % 256

/-- Row 2 of a MixColumns output column. -/
def mcr2 (a b c d : Nat) : Nat := a % 256 ^^^ b % 256 ^^^ mul2 c ^^^ mul3 d

/-- Row 3 of a MixColumns output column. -/
def mcr3 (a b c d : Nat) : Nat := mul3 a ^^^ b % 256 ^^^ c % 256 ^^^ mul2 d

/-- Row 0 of an InvMixColumns output column. -/
def imr0 (a b c d : Nat) : Nat := mul14 a ^^^ mul11 b ^^^ mul13 c ^^^ mul9 d

/-- Row 1 of an InvMixColumns output column. -/
def imr1 (a b c d : Nat) : Nat := mul9 a ^^^ mul14 b ^^^ mul11 c ^^^ mul13 d

/-- Row 2 of an InvMixColumns output column. -/
def imr2 (a b c d : Nat) : Nat := mul13 a ^^^ mul9 b ^^^ mul14 c ^^^ mul11 d

/-- Row 3 of an InvMixColumns output column. -/
def imr3 (a b c d : Nat) : Nat := mul11 a ^^^ mul13 b ^^^ mul9 c ^^^ mul14 d

/-- AES MixColumns, column by column. -/
def mixColumns (s : Block) : Block :=
  ⟨mcr0 s.b0 s.b1 s.b2 s.b3, mcr1 s.b0 s.b1 s.b2 s.b3,
   mcr2 s.b0 s.b1 s.b2 s.b3, mcr3 s.b0 s.b1 s.b2 s.b3,
   mcr0 s.b4 s.b5 s.b6 s.b7, mcr1 s.b4 s.b5 s.b6 s.b7,
   mcr2 s.b4 s.b5 s.b6 s.b7, mcr3 s.b4 s.b5 s.b6 s.b7,
   mcr0 s.b8 s.b9 s.b10 s.b11, mcr1 s.b8 s.b9 s.b10 s.b11,
   mcr2 s.b8 s.b9 s.b10 s.b11, mcr3 s.b8 s.b9 s.b10 s.b11,
   mcr0 s.b12 s.b13 s.b14 s.b15, mcr1 s.b12 s.b13 s.b14 s.b15,
   mcr2 s.b12 s.b13 s.b14 s.b15, mcr3 s.b12 s.b13 s.b14 s.b15⟩

/-- AES InvMixColumns, column by column (`_mm_aesimc_si128`). -/
def invMixColumns (s : Block) : Block :=
  ⟨imr0 s.b0 s.b1 s.b2 s.b3, imr1 s.b0 s.b1 s.b2 s.b3,
   imr2 s.b0 s.b1 s.b2 s.b3, imr3 s.b0 s.b1 s.b2 s.b3,
   imr0 s.b4 s.b5 s.b6 s.b7, imr1 s.b4 s.b5 s.b6 s.b7,
   imr2 s.b4 s.b5 s.b6 s.b7, imr3 s.b4 s.b5 s.b6 s.b7,
   imr0 s.b8 s.b9 s.b10 s.b11, imr1 s.b8 s.b9 s.b10 s.b11,
   imr2 s.b8 s.b9 s.b10 s.b11, imr3 s.b8 s.b9 s.b10 s.b11,
   imr0 s.b12 s.b13 s.b14 s.b15, imr1 s.b12 s.b13 s.b14 s.b15,
   imr2 s.b12 s.b13 s.b14 s.b15, imr3 s.b12 s.b13 s.b14 s.b15⟩

/-- Semantics of `_mm_aesenc_si128`: one full AES encryption round. -/
def aesenc (m k : Block) : Block := xorB (mixColumns (shiftRows (subBytes m))) k

/-- Semantics of `_mm_aesenclast_si128`: the final AES encryption round
(no MixColumns). -/
def aesenclast (m k : Block) : Block := xorB (shiftRows (subBytes m)) k

/-- Semantics of `_mm_aesdec_si128`: one full equivalent-inverse-cipher
decryption round. -/
def aesdec (m k : Block) : Block := xorB (invMixColumns (invSubBytes (invShiftRows m))) k

/-- Semantics of `_mm_aesdeclast_si128`: the final decryption round
(no InvMixColumns). -/
def aesdeclast (m k : Block) : Block := xorB (invSubBytes (invShiftRows m)) k

/-- Semantics of `_mm_aesimc_si128`. -/
def aesimc (m : Block) : Block := invMixColumns m


/-! ### Block-level lemmas -/

theorem grpA0 (x : Nat) (h : x < 256) :
    mul14 (mul2 x) ^^^ mul11 x ^^^ mul13 x ^^^ mul9 (mul3 x) = x := (imcGroupA x h).1
theorem grpA1 (x : Nat) (h : x < 256) :
    mul9 (mul2 x) ^^^ mul14 x ^^^ mul11 x ^^^ mul13 (mul3 x) = 0 := (imcGroupA x h).2.1
theorem grpA2 (x : Nat) (h : x < 256) :
    mul13 (mul2 x) ^^^ mul9 x ^^^ mul14 x ^^^ mul11 (mul3 x) = 0 := (imcGroupA x h).2.2.1
theorem grpA3 (x : Nat) (h : x < 256) :
    mul11 (mul2 x) ^^^ mul13 x ^^^ mul9 x ^^^ mul14 (mul3 x) = 0 := (imcGroupA x h).2.2.2

theorem grpB0 (x : Nat) (h : x < 256) :
    mul14 (mul3 x) ^^^ mul11 (mul2 x) ^^^ mul13 x ^^^ mul9 x = 0 := (imcGroupB x h).1
theorem grpB1 (x : Nat) (h : x < 256) :
    mul9 (mul3 x) ^^^ mul14 (mul2 x) ^^^ mul11 x ^^^ mul13 x = x := (imcGroupB x h).2.1
theorem grpB2 (x : Nat) (h : x < 256) :
    mul13 (mul3 x) ^^^ mul9 (mul2 x) ^^^ mul14 x ^^^ mul11 x = 0 := (imcGroupB x h).2.2.1
theorem grpB3 (x : Nat) (h : x < 256) :
    mul11 (mul3 x) ^^^ mul13 (mul2 x) ^^^ mul9 x ^^^ mul14 x = 0 := (imcGroupB x h).2.2.2

theorem grpC0 (x : Nat) (h : x < 256) :
    mul14 x ^^^ mul11 (mul3 x) ^^^ mul13 (mul2 x) ^^^ mul9 x = 0 := (imcGroupC x h).1
theorem grpC1 (x : Nat) (h : x < 256) :
    mul9 x ^^^ mul14 (mul3 x) ^^^ mul11 (mul2 x) ^^^ mul13 x = 0 := (imcGroupC x h).2.1
theorem grpC2 (x : Nat) (h : x < 256) :
    mul13 x ^^^ mul9 (mul3 x) ^^^ mul14 (mul2 x) ^^^ mul11 x = x := (imcGroupC x h).2.2.1
theorem grpC3 (x : Nat) (h : x < 256) :
    mul11 x ^^^ mul13 (mul3 x) ^^^ mul9 (mul2 x) ^^^ mul14 x = 0 := (imcGroupC x h).2.2.2

theorem grpD0 (x : Nat) (h : x < 256) :
    mul14 x ^^^ mul11 x ^^^ mul13 (mul3 x) ^^^ mul9 (mul2 x) = 0 := (imcGroupD x h).1
theorem grpD1 (x : Nat) (h : x < 256) :
    mul9 x ^^^ mul14 x ^^^ mul11 (mul3 x) ^^^ mul13 (mul2 x) = 0 := (imcGroupD x h).2.1
theorem grpD2 (x : Nat) (h : x < 256) :
    mul13 x ^^^ mul9 x ^^^ mul14 (mul3 x) ^^^ mul11 (mul2 x) = 0 := (imcGroupD x h).2.2.1
theorem grpD3 (x : Nat) (h : x < 256) :
    mul11 x ^^^ mul13 x ^^^ mul9 (mul3 x) ^^^ mul14 (mul2 x) = x := (imcGroupD x h).2.2.2

theorem imr_mcr0 (a b c d : Nat) (ha : a < 256) (hb : b < 256) (hc : c < 256) (hd : d < 256) :
    imr0 (mcr0 a b c d) (mcr1 a b c d) (mcr2 a b c d) (mcr3 a b c d) = a := by
  have ea : a % 256 = a := Nat.mod_eq_of_lt ha
  have eb : b % 256 = b := Nat.mod_eq_of_lt hb
  have ec : c % 256 = c := Nat.mod_eq_of_lt hc
  have ed : d % 256 = d := Nat.mod_eq_of_lt hd
  simp only [imr0, mcr0, mcr1, mcr2, mcr3, ea, eb, ec, ed,
    mul14_xor, mul11_xor, mul13_xor, mul9_xor]
  trans (mul14 (mul2 a) ^^^ mul11 a ^^^ mul13 a ^^^ mul9 (mul3 a)) ^^^
      ((mul14 (mul3 b) ^^^ mul11 (mul2 b) ^^^ mul13 b ^^^ mul9 b) ^^^
      ((mul14 c ^^^ mul11 (mul3 c) ^^^ mul13 (mul2 c) ^^^ mul9 c) ^^^
       (mul14 d ^^^ mul11 d ^^^ mul13 (mul3 d) ^^^ mul9 (mul2 d))))
  · ac_rfl
  · rw [grpA0 a ha, grpB0 b hb, grpC0 c hc, grpD0 d hd]
    simp

theorem imr_mcr1 (a b c d : Nat) (ha : a < 256) (hb : b < 256) (hc : c < 256) (hd : d < 256) :
    imr1 (mcr0 a b c d) (mcr1 a b c d) (mcr2 a b c d) (mcr3 a b c d) = b := by
  have ea : a % 256 = a := Nat.mod_eq_of_lt ha
  have eb : b % 256 = b := Nat.mod_eq_of_lt hb
  have ec : c % 256 = c := Nat.mod_eq_of_lt hc
  have ed : d % 256 = d := Nat.mod_eq_of_lt hd
  simp only [imr1, mcr0, mcr1, mcr2, mcr3, ea, eb, ec, ed,
    mul14_xor, mul11_xor, mul13_xor, mul9_xor]
  trans (mul9 (mul2 a) ^^^ mul14 a ^^^ mul11 a ^^^ mul13 (mul3 a)) ^^^
      ((mul9 (mul3 b) ^^^ mul14 (mul2 b) ^^^ mul11 b ^^^ mul13 b) ^^^
      ((mul9 c ^^^ mul14 (mul3 c) ^^^ mul11 (mul2 c) ^^^ mul13 c) ^^^
       (mul9 d ^^^ mul14 d ^^^ mul11 (mul3 d) ^^^ mul13 (mul2 d))))
  · ac_rfl
  · rw [grpA1 a ha, grpB1 b hb, grpC1 c hc, grpD1 d hd]
    simp

theorem imr_mcr2 (a b c d : Nat) (ha : a < 256) (hb : b < 256) (hc : c < 256) (hd : d < 256) :
    imr2 (mcr0 a b c d) (mcr1 a b c d) (mcr2 a b c d) (mcr3 a b c d) = c := by
  have ea : a % 256 = a := Nat.mod_eq_of_lt ha
  have eb : b % 256 = b := Nat.mod_eq_of_lt hb
  have ec : c % 256 = c := Nat.mod_eq_of_lt hc
  have ed : d % 256 = d := Nat.mod_eq_of_lt hd
  simp only [imr2, mcr0, mcr1, mcr2, mcr3, ea, eb, ec, ed,
    mul14_xor, mul11_xor, mul13_xor, mul9_xor]
  trans (mul13 (mul2 a) ^^^ mul9 a ^^^ mul14 a ^^^ mul11 (mul3 a)) ^^^
      ((mul13 (mul3 b) ^^^ mul9 (mul2 b) ^^^ mul14 b ^^^ mul11 b) ^^^
      ((mul13 c ^^^ mul9 (mul3 c) ^^^ mul14 (mul2 c) ^^^ mul11 c) ^^^
       (mul13 d ^^^ mul9 d ^^^ mul14 (mul3 d) ^^^ mul11 (mul2 d))))
  · ac_rfl
  · rw [grpA2 a ha, grpB2 b hb, grpC2 c hc, grpD2 d hd]
    simp

theorem imr_mcr3 (a b c d : Nat) (ha : a < 256) (hb : b < 256) (hc : c < 256) (hd : d < 256) :
    imr3 (mcr0 a b c d) (mcr1 a b c d) (mcr2 a b c d) (mcr3 a b c d) = d := by
  have ea : a % 256 = a := Nat.mod_eq_of_lt ha
  have eb : b % 256 = b := Nat.mod_eq_of_lt hb
  have ec : c % 256 = c := Nat.mod_eq_of_lt hc
  have ed : d % 256 = d := Nat.mod_eq_of_lt hd
  simp only [imr3, mcr0, mcr1, mcr2, mcr3, ea, eb, ec, ed,
    mul14_xor, mul11_xor, mul13_xor, mul9_xor]
  trans (mul11 (mul2 a) ^^^ mul13 a ^^^ mul9 a ^^^ mul14 (mul3 a)) ^^^
      ((mul11 (mul3 b) ^^^ mul13 (mul2 b) ^^^ mul9 b ^^^ mul14 b) ^^^
      ((mul11 c ^^^ mul13 (mul3 c) ^^^ mul9 (mul2 c) ^^^ mul14 c) ^^^
       (mul11 d ^^^ mul13 d ^^^ mul9 (mul3 d) ^^^ mul14 (mul2 d))))
  · ac_rfl
  · rw [grpA3 a ha, grpB3 b hb, grpC3 c hc, grpD3 d hd]
    simp


theorem mod256_idem (x : Nat) : x % 256 % 256 = x % 256 :=
  Nat.mod_eq_of_lt (mod256_lt x)

theorem mul_two_mod (x : Nat) : 2 * (x % 256) % 256 = 2 * x % 256 := by
  rw [Nat.mul_mod 2 (x % 256) 256, mod256_idem, ← Nat.mul_mod]

theorem testBit7_mod (x : Nat) : (x % 256).testBit 7 = x.testBit 7 := by
  show (x % 2 ^ 8).testBit 7 = x.testBit 7
  rw [Nat.testBit_mod_two_pow]
  simp

theorem xtime_mod (x : Nat) : xtime (x % 256) = xtime x := by
  unfold xtime
  rw [mul_two_mod, testBit7_mod]

theorem mul2_mod (x : Nat) : mul2 (x % 256) = mul2 x := xtime_mod x

theorem mul3_mod (x : Nat) : mul3 (x % 256) = mul3 x := by
  unfold mul3; rw [xtime_mod, mod256_idem]

theorem mul9_mod (x : Nat) : mul9 (x % 256) = mul9 x := by
  unfold mul9; rw [xtime_mod, mod256_idem]

theorem mul11_mod (x : Nat) : mul11 (x % 256) = mul11 x := by
  unfold mul11; rw [xtime_mod, mod256_idem]

theorem mul13_mod (x : Nat) : mul13 (x % 256) = mul13 x := by
  unfold mul13; rw [xtime_mod, mod256_idem]

theorem mul14_mod (x : Nat) : mul14 (x % 256) = mul14 x := by
  unfold mul14; rw [xtime_mod]

theorem mxor_cancel {a : Nat} (b : Nat) (h : a < 256) :
    ((a ^^^ b) % 256 ^^^ b) % 256 = a :=
  calc ((a ^^^ b) % 256 ^^^ b) % 256
      = (a ^^^ b) % 256 % 256 ^^^ b % 256 := mod256_xor _ b
    _ = (a ^^^ b) % 256 ^^^ b % 256 := by rw [mod256_idem]
    _ = (a % 256 ^^^ b % 256) ^^^ b % 256 := by rw [mod256_xor]
    _ = a % 256 := Nat.xor_cancel_right _ _
    _ = a := Nat.mod_eq_of_lt h

theorem imr0_mod (a b c d : Nat) :
    imr0 (a % 256) (b % 256) (c % 256) (d % 256) = imr0 a b c d := by
  unfold imr0; rw [mul14_mod, mul11_mod, mul13_mod, mul9_mod]

theorem imr1_mod (a b c d : Nat) :
    imr1 (a % 256) (b % 256) (c % 256) (d % 256) = imr1 a b c d := by
  unfold imr1; rw [mul9_mod, mul14_mod, mul11_mod, mul13_mod]

theorem imr2_mod (a b c d : Nat) :
    imr2 (a % 256) (b % 256) (c % 256) (d % 256) = imr2 a b c d := by
  unfold imr2; rw [mul13_mod, mul9_mod, mul14_mod, mul11_mod]

theorem imr3_mod (a b c d : Nat) :
    imr3 (a % 256) (b % 256) (c % 256) (d % 256) = imr3 a b c d := by
  unfold imr3; rw [mul11_mod, mul13_mod, mul9_mod, mul14_mod]

theorem xorB_cancel (a b : Block) (ha : Ok a) : xorB (xorB a b) b = a := by
  cases a; cases b
  obtain ⟨h0, h1, h2, h3, h4, h5, h6, h7, h8, h9, h10, h11, h12, h13, h14, h15⟩ := ha
  simp only [xorB]
  rw [mxor_cancel _ h0, mxor_cancel _ h1, mxor_cancel _ h2, mxor_cancel _ h3,
    mxor_cancel _ h4, mxor_cancel _ h5, mxor_cancel _ h6, mxor_cancel _ h7,
    mxor_cancel _ h8, mxor_cancel _ h9, mxor_cancel _ h10, mxor_cancel _ h11,
    mxor_cancel _ h12, mxor_cancel _ h13, mxor_cancel _ h14, mxor_cancel _ h15]

theorem invShiftRows_shiftRows (s : Block) : invShiftRows (shiftRows s) = s := by
  cases s; rfl

theorem invSubBytes_subBytes (s : Block) (h : Ok s) : invSubBytes (subBytes s) = s := by
  cases s
  obtain ⟨h0, h1, h2, h3, h4, h5, h6, h7, h8, h9, h10, h11, h12, h13, h14, h15⟩ := h
  simp only [subBytes, invSubBytes]
  rw [invSbox_sbox _ h0, invSbox_sbox _ h1, invSbox_sbox _ h2, invSbox_sbox _ h3,
    invSbox_sbox _ h4, invSbox_sbox _ h5, invSbox_sbox _ h6, invSbox_sbox _ h7,
    invSbox_sbox _ h8, invSbox_sbox _ h9, invSbox_sbox _ h10, invSbox_sbox _ h11,
    invSbox_sbox _ h12, invSbox_sbox _ h13, invSbox_sbox _ h14, invSbox_sbox _ h15]

theorem Ok_xorB (a b : Block) : Ok (xorB a b) :=
  ⟨mod256_lt _, mod256_lt _, mod256_lt _, mod256_lt _, mod256_lt _, mod256_lt _,
   mod256_lt _, mod256_lt _, mod256_lt _, mod256_lt _, mod256_lt _, mod256_lt _,
   mod256_lt _, mod256_lt _, mod256_lt _, mod256_lt _⟩

theorem Ok_subBytes (s : Block) : Ok (subBytes s) :=
  ⟨sbox_lt _, sbox_lt _, sbox_lt _, sbox_lt _, sbox_lt _, sbox_lt _, sbox_lt _, sbox_lt _,
   sbox_lt _, sbox_lt _, sbox_lt _, sbox_lt _, sbox_lt _, sbox_lt _, sbox_lt _, sbox_lt _⟩

theorem Ok_invSubBytes (s : Block) : Ok (invSubBytes s) :=
  ⟨invSbox_lt _, invSbox_lt _, invSbox_lt _, invSbox_lt _, invSbox_lt _, invSbox_lt _,
   invSbox_lt _, invSbox_lt _, invSbox_lt _, invSbox_lt _, invSbox_lt _, invSbox_lt _,
   invSbox_lt _, invSbox_lt _, invSbox_lt _, invSbox_lt _⟩

theorem Ok_shiftRows {s : Block} (h : Ok s) : Ok (shiftRows s) := by
  obtain ⟨h0, h1, h2, h3, h4, h5, h6, h7, h8, h9, h10, h11, h12, h13, h14, h15⟩ := h
  exact ⟨h0, h5, h10, h15, h4, h9, h14, h3, h8, h13, h2, h7, h12, h1, h6, h11⟩

theorem mcr0_lt (a b c d : Nat) : mcr0 a b c d < 256 :=
  xor8 (xor8 (xor8 (mul2_lt a) (mul3_lt b)) (mod256_lt c)) (mod256_lt d)
theorem mcr1_lt (a b c d : Nat) : mcr1 a b c d < 256 :=
  xor8 (xor8 (xor8 (mod256_lt a) (mul2_lt b)) (mul3_lt c)) (mod256_lt d)
theorem mcr2_lt (a b c d : Nat) : mcr2 a b c d < 256 :=
  xor8 (xor8 (xor8 (mod256_lt a) (mod256_lt b)) (mul2_lt c)) (mul3_lt d)
theorem mcr3_lt (a b c d : Nat) : mcr3 a b c d < 256 :=
  xor8 (xor8 (xor8 (mul3_lt a) (mod256_lt b)) (mod256_lt c)) (mul2_lt d)
theorem imr0_lt (a b c d : Nat) : imr0 a b c d < 256 :=
  xor8 (xor8 (xor8 (mul14_lt a) (mul11_lt b)) (mul13_lt c)) (mul9_lt d)
theorem imr1_lt (a b c d : Nat) : imr1 a b c d < 256 :=
  xor8 (xor8 (xor8 (mul9_lt a) (mul14_lt b)) (mul11_lt c)) (mul13_lt d)
theorem imr2_lt (a b c d : Nat) : imr2 a b c d < 256 :=
  xor8 (xor8 (xor8 (mul13_lt a) (mul9_lt b)) (mul14_lt c)) (mul11_lt d)
theorem imr3_lt (a b c d : Nat) : imr3 a b c d < 256 :=
  xor8 (xor8 (xor8 (mul11_lt a) (mul13_lt b)) (mul9_lt c)) (mul14_lt d)

theorem Ok_mixColumns (s : Block) : Ok (mixColumns s) :=
  ⟨mcr0_lt .., mcr1_lt .., mcr2_lt .., mcr3_lt .., mcr0_lt .., mcr1_lt .., mcr2_lt .., mcr3_lt ..,
   mcr0_lt .., mcr1_lt .., mcr2_lt .., mcr3_lt .., mcr0_lt .., mcr1_lt .., mcr2_lt .., mcr3_lt ..⟩

theorem Ok_invMixColumns (s : Block) : Ok (invMixColumns s) :=
  ⟨imr0_lt .., imr1_lt .., imr2_lt .., imr3_lt .., imr0_lt .., imr1_lt .., imr2_lt .., imr3_lt ..,
   imr0_lt .., imr1_lt .., imr2_lt .., imr3_lt .., imr0_lt .., imr1_lt .., imr2_lt .., imr3_lt ..⟩

theorem imr0_xor (a0 a1 a2 a3 c0 c1 c2 c3 : Nat) :
    imr0 (a0 ^^^ c0) (a1 ^^^ c1) (a2 ^^^ c2) (a3 ^^^ c3) =
      imr0 a0 a1 a2 a3 ^^^ imr0 c0 c1 c2 c3 := by
  simp only [imr0, mul14_xor, mul11_xor, mul13_xor, mul9_xor]; ac_rfl

theorem imr1_xor (a0 a1 a2 a3 c0 c1 c2 c3 : Nat) :
    imr1 (a0 ^^^ c0) (a1 ^^^ c1) (a2 ^^^ c2) (a3 ^^^ c3) =
      imr1 a0 a1 a2 a3 ^^^ imr1 c0 c1 c2 c3 := by
  simp only [imr1, mul14_xor, mul11_xor, mul13_xor, mul9_xor]; ac_rfl

theorem imr2_xor (a0 a1 a2 a3 c0 c1 c2 c3 : Nat) :
    imr2 (a0 ^^^ c0) (a1 ^^^ c1) (a2 ^^^ c2) (a3 ^^^ c3) =
      imr2 a0 a1 a2 a3 ^^^ imr2 c0 c1 c2 c3 := by
  simp only [imr2, mul14_xor, mul11_xor, mul13_xor, mul9_xor]; ac_rfl

theorem imr3_xor (a0 a1 a2 a3 c0 c1 c2 c3 : Nat) :
    imr3 (a0 ^^^ c0) (a1 ^^^ c1) (a2 ^^^ c2) (a3 ^^^ c3) =
      imr3 a0 a1 a2 a3 ^^^ imr3 c0 c1 c2 c3 := by
  simp only [imr3, mul14_xor, mul11_xor, mul13_xor, mul9_xor]; ac_rfl

theorem imr0_xm (a0 a1 a2 a3 c0 c1 c2 c3 : Nat) :
    imr0 ((a0 ^^^ c0) % 256) ((a1 ^^^ c1) % 256) ((a2 ^^^ c2) % 256) ((a3 ^^^ c3) % 256)
      = (imr0 a0 a1 a2 a3 ^^^ imr0 c0 c1 c2 c3) % 256 := by
  rw [imr0_mod, imr0_xor, Nat.mod_eq_of_lt (xor8 (imr0_lt a0 a1 a2 a3) (imr0_lt c0 c1 c2 c3))]

theorem imr1_xm (a0 a1 a2 a3 c0 c1 c2 c3 : Nat) :
    imr1 ((a0 ^^^ c0) % 256) ((a1 ^^^ c1) % 256) ((a2 ^^^ c2) % 256) ((a3 ^^^ c3) % 256)
      = (imr1 a0 a1 a2 a3 ^^^ imr1 c0 c1 c2 c3) % 256 := by
  rw [imr1_mod, imr1_xor, Nat.mod_eq_of_lt (xor8 (imr1_lt a0 a1 a2 a3) (imr1_lt c0 c1 c2 c3))]

theorem imr2_xm (a0 a1 a2 a3 c0 c1 c2 c3 : Nat) :
    imr2 ((a0 ^^^ c0) % 256) ((a1 ^^^ c1) % 256) ((a2 ^^^ c2) % 256) ((a3 ^^^ c3) % 256)
      = (imr2 a0 a1 a2 a3 ^^^ imr2 c0 c1 c2 c3) % 256 := by
  rw [imr2_mod, imr2_xor, Nat.mod_eq_of_lt (xor8 (imr2_lt a0 a1 a2 a3) (imr2_lt c0 c1 c2 c3))]

theorem imr3_xm (a0 a1 a2 a3 c0 c1 c2 c3 : Nat) :
    imr3 ((a0 ^^^ c0) % 256) ((a1 ^^^ c1) % 256) ((a2 ^^^ c2) % 256) ((a3 ^^^ c3) % 256)
      = (imr3 a0 a1 a2 a3 ^^^ imr3 c0 c1 c2 c3) % 256 := by
  rw [imr3_mod, imr3_xor, Nat.mod_eq_of_lt (xor8 (imr3_lt a0 a1 a2 a3) (imr3_lt c0 c1 c2 c3))]

theorem invMixColumns_xorB (a b : Block) :
    invMixColumns (xorB a b) = xorB (invMixColumns a) (invMixColumns b) := by
  cases a; cases b
  simp only [xorB, invMixColumns, imr0_xm, imr1_xm, imr2_xm, imr3_xm]

theorem invMixColumns_mixColumns (s : Block) (h : Ok s) :
    invMixColumns (mixColumns s) = s := by
  cases s
  obtain ⟨h0, h1, h2, h3, h4, h5, h6, h7, h8, h9, h10, h11, h12, h13, h14, h15⟩ := h
  simp only [mixColumns, invMixColumns]
  rw [imr_mcr0 _ _ _ _ h0 h1 h2 h3, imr_mcr1 _ _ _ _ h0 h1 h2 h3,
    imr_mcr2 _ _ _ _ h0 h1 h2 h3, imr_mcr3 _ _ _ _ h0 h1 h2 h3,
    imr_mcr0 _ _ _ _ h4 h5 h6 h7, imr_mcr1 _ _ _ _ h4 h5 h6 h7,
    imr_mcr2 _ _ _ _ h4 h5 h6 h7, imr_mcr3 _ _ _ _ h4 h5 h6 h7,
    imr_mcr0 _ _ _ _ h8 h9 h10 h11, imr_mcr1 _ _ _ _ h8 h9 h10 h11,
    imr_mcr2 _ _ _ _ h8 h9 h10 h11, imr_mcr3 _ _ _ _ h8 h9 h10 h11,
    imr_mcr0 _ _ _ _ h12 h13 h14 h15, imr_mcr1 _ _ _ _ h12 h13 h14 h15,
    imr_mcr2 _ _ _ _ h12 h13 h14 h15, imr_mcr3 _ _ _ _ h12 h13 h14 h15]


/-! ### src/AESNI.c : helper intrinsics and key expansion

The helpers below model the remaining intrinsics used by
`aes_key_setup_enc`: 128-bit byte shifts, dword shuffles, `_mm_shuffle_pd`
on the 64-bit halves, and `_mm_aeskeygenassist_si128`. -/

/-- `_mm_slli_si128(k, 4)`: shift the whole 128-bit value left by 4 bytes. -/
def slli4 (s : Block) : Block :=
  ⟨0, 0, 0, 0,
   s.b0, s.b1, s.b2, s.b3,
   s.b4, s.b5, s.b6, s.b7,
   s.b8, s.b9, s.b10, s.b11⟩

/-- `_mm_shuffle_epi32(m, 0x55)`: broadcast dword 1 to all four dwords. -/
def bcast1 (s : Block) : Block :=
  ⟨s.b4, s.b5, s.b6, s.b7, s.b4, s.b5, s.b6, s.b7,
   s.b4, s.b5, s.b6, s.b7, s.b4, s.b5, s.b6, s.b7⟩

/-- `_mm_shuffle_epi32(m, 0xaa)`: broadcast dword 2 to all four dwords. -/
def bcast2 (s : Block) : Block :=
  ⟨s.b8, s.b9, s.b10, s.b11, s.b8, s.b9, s.b10, s.b11,
   s.b8, s.b9, s.b10, s.b11, s.b8, s.b9, s.b10, s.b11⟩

/-- `_mm_shuffle_epi32(m, 0xff)`: broadcast dword 3 to all four dwords. -/
def bcast3 (s : Block) : Block :=
  ⟨s.b12, s.b13, s.b14, s.b15, s.b12, s.b13, s.b14, s.b15,
   s.b12, s.b13, s.b14, s.b15, s.b12, s.b13, s.b14, s.b15⟩

/-- `_mm_shuffle_pd(a, b, 0)` (through the `castpd` bit casts): low half of
`a`, low half of `b`. -/
def shufpd0 (a b : Block) : Block :=
  ⟨a.b0, a.b1, a.b2, a.b3, a.b4, a.b5, a.b6, a.b7,
   b.b0, b.b1, b.b2, b.b3, b.b4, b.b5, b.b6, b.b7⟩

/-- `_mm_shuffle_pd(a, b, 1)`: high half of `a`, low half of `b`. -/
def shufpd1 (a b : Block) : Block :=
  ⟨a.b8, a.b9, a.b10, a.b11, a.b12, a.b13, a.b14, a.b15,
   b.b0, b.b1, b.b2, b.b3, b.b4, b.b5, b.b6, b.b7⟩

/-- `_mm_aeskeygenassist_si128(k, rcon)`: SubWord and RotWord of dwords 1
and 3, with the round constant folded into the rotated words. -/
def keygenassist (k : Block) (rcon : Nat) : Block :=
  ⟨sbox k.b4, sbox k.b5, sbox k.b6, sbox k.b7,
   sbox k.b5 ^^^ rcon, sbox k.b6, sbox k.b7, sbox k.b4,
   sbox k.b12, sbox k.b13, sbox k.b14, sbox k.b15,
   sbox k.b13 ^^^ rcon, sbox k.b14, sbox k.b15, sbox k.b12⟩

/-- `aes128_keyexpand` of src/AESNI.c: xor the state with its byte-shifts. -/
def aes128_keyexpand (key : Block) : Block :=
  let k1 := xorB key (slli4 key)
  let k2 := xorB k1 (slli4 k1)
  xorB k2 (slli4 k2)

/-- `aes192_keyexpand_2` of src/AESNI.c. -/
def aes192_keyexpand_2 (key key2 : Block) : Block :=
  xorB (bcast3 key) (xorB key2 (slli4 key2))

/-- The `KEYEXP128` macro of src/AESNI.c. -/
def keyexp128 (k : Block) (i : Nat) : Block :=
  xorB (aes128_keyexpand k) (bcast3 (keygenassist k i))

/-- The `KEYEXP192` macro of src/AESNI.c. -/
def keyexp192 (k1 k2 : Block) (i : Nat) : Block :=
  xorB (aes128_keyexpand k1) (bcast1 (keygenassist k2 i))

/-- The `KEYEXP256` macro of src/AESNI.c. -/
def keyexp256 (k1 k2 : Block) (i : Nat) : Block :=
  xorB (aes128_keyexpand k1) (bcast3 (keygenassist k2 i))

/-- The `KEYEXP256_2` macro of src/AESNI.c. -/
def keyexp256sub (k1 k2 : Block) : Block :=
  xorB (aes128_keyexpand k1) (bcast2 (keygenassist k2 0))

/-- `_mm_loadu_si128` of 16 consecutive key bytes at offset `off`. -/
def loadBlock (key : Nat → Nat) (off : Nat) : Block :=
  ⟨key off, key (off + 1), key (off + 2), key (off + 3),
   key (off + 4), key (off + 5), key (off + 6), key (off + 7),
   key (off + 8), key (off + 9), key (off + 10), key (off + 11),
   key (off + 12), key (off + 13), key (off + 14), key (off + 15)⟩

/-- `aes_key_setup_enc` of src/AESNI.c: expansion of the cipher key into
encryption round keys, for key lengths 16, 24 and 32 (any other length
leaves the schedule untouched, modelled as all-zero blocks). -/
def aes_key_setup_enc (key : Nat → Nat) (keylen : Nat) : Nat → Block :=
  if keylen = 16 then
    let rk0 := loadBlock key 0
    let rk1 := keyexp128 rk0 0x01
    let rk2 := keyexp128 rk1 0x02
    let rk3 := keyexp128 rk2 0x04
    let rk4 := keyexp128 rk3 0x08
    let rk5 := keyexp128 rk4 0x10
    let rk6 := keyexp128 rk5 0x20
    let rk7 := keyexp128 rk6 0x40
    let rk8 := keyexp128 rk7 0x80
    let rk9 := keyexp128 rk8 0x1B
    let rk10 := keyexp128 rk9 0x36
    fun i => [rk0, rk1, rk2, rk3, rk4, rk5, rk6, rk7, rk8, rk9, rk10].getD i zeroB
  else if keylen = 24 then
    let rk0 := loadBlock key 0
    let rk1a := loadBlock key 16
    let t0a := keyexp192 rk0 rk1a 0x01
    let t1a := aes192_keyexpand_2 t0a rk1a
    let rk1 := shufpd0 rk1a t0a
    let rk2 := shufpd1 t0a t1a
    let rk3 := keyexp192 t0a t1a 0x02
    let rk4a := aes192_keyexpand_2 rk3 t1a
    let t0b := keyexp192 rk3 rk4a 0x04
    let t1b := aes192_keyexpand_2 t0b rk4a
    let rk4 := shufpd0 rk4a t0b
    let rk5 := shufpd1 t0b t1b
    let rk6 := keyexp192 t0b t1b 0x08
    let rk7a := aes192_keyexpand_2 rk6 t1b
    let t0c := keyexp192 rk6 rk7a 0x10
    let t1c := aes192_keyexpand_2 t0c rk7a
    let rk7 := shufpd0 rk7a t0c
    let rk8 := shufpd1 t0c t1c
    let rk9 := keyexp192 t0c t1c 0x20
    let rk10a := aes192_keyexpand_2 rk9 t1c
    let t0d := keyexp192 rk9 rk10a 0x40
    let t1d := aes192_keyexpand_2 t0d rk10a
    let rk10 := shufpd0 rk10a t0d
    let rk11 := shufpd1 t0d t1d
    let rk12 := keyexp192 t0d t1d 0x80
    fun i =>
      [rk0, rk1, rk2, rk3, rk4, rk5, rk6, rk7, rk8, rk9, rk10, rk11, rk12].getD i zeroB
  else if keylen = 32 then
    let rk0 := loadBlock key 0
    let rk1 := loadBlock key 16
    let rk2 := keyexp256 rk0 rk1 0x01
    let rk3 := keyexp256sub rk1 rk2
    let rk4 := keyexp256 rk2 rk3 0x02
    let rk5 := keyexp256sub rk3 rk4
    let rk6 := keyexp256 rk4 rk5 0x04
    let rk7 := keyexp256sub rk5 rk6
    let rk8 := keyexp256 rk6 rk7 0x08
    let rk9 := keyexp256sub rk7 rk8
    let rk10 := keyexp256 rk8 rk9 0x10
    let rk11 := keyexp256sub rk9 rk10
    let rk12 := keyexp256 rk10 rk11 0x20
    let rk13 := keyexp256sub rk11 rk12
    let rk14 := keyexp256 rk12 rk13 0x40
    fun i =>
      [rk0, rk1, rk2, rk3, rk4, rk5, rk6, rk7, rk8, rk9, rk10, rk11, rk12, rk13,
       rk14].getD i zeroB
  else fun _ => zeroB

/-- `aes_key_setup_dec` of src/AESNI.c: the decryption round keys.
`dk[rounds] = ek[0]`, `dk[rounds-i] = aesimc(ek[i])` for `0 < i < rounds`,
`dk[0] = ek[rounds]`. -/
def aes_key_setup_dec (ek : Nat → Block) (rounds : Nat) : Nat → Block :=
  fun j =>
    if j = 0 then ek rounds
    else if j = rounds then ek 0
    else aesimc (ek (rounds - j))

/-- The `block_state` of src/AESNI.c: encryption and decryption round-key
schedules plus the round count. -/
structure block_state where
  ek : Nat → Block
  dk : Nat → Block
  rounds : Nat

/-- `block_init_aesni` of src/AESNI.c.  The C function returns without
initializing anything when the key length is not 16, 24 or 32; the embedding
returns `none` for that failure. -/
def block_init_aesni (key : Nat → Nat) (keylen : Nat) : Option block_state :=
  if keylen = 16 then
    let ek := aes_key_setup_enc key 16
    some ⟨ek, aes_key_setup_dec ek 10, 10⟩
  else if keylen = 24 then
    let ek := aes_key_setup_enc key 24
    some ⟨ek, aes_key_setup_dec ek 12, 12⟩
  else if keylen = 32 then
    let ek := aes_key_setup_enc key 32
    some ⟨ek, aes_key_setup_dec ek 14, 14⟩
  else none

/-- `block_encrypt_aesni` of src/AESNI.c: initial key-mix, nine rounds, two
more rounds unless AES-128, another two for AES-256, and the final round. -/
def block_encrypt_aesni (s : block_state) (inp : Block) : Block :=
  let m0 := xorB inp (s.ek 0)
  let m9 := aesenc (aesenc (aesenc (aesenc (aesenc (aesenc (aesenc (aesenc
    (aesenc m0 (s.ek 1)) (s.ek 2)) (s.ek 3)) (s.ek 4)) (s.ek 5)) (s.ek 6))
    (s.ek 7)) (s.ek 8)) (s.ek 9)
  let mA :=
    if s.rounds ≠ 10 then
      let m11 := aesenc (aesenc m9 (s.ek 10)) (s.ek 11)
      if s.rounds = 14 then aesenc (aesenc m11 (s.ek 12)) (s.ek 13) else m11
    else m9
  aesenclast mA (s.ek s.rounds)

/-- `block_decrypt_aesni` of src/AESNI.c. -/
def block_decrypt_aesni (s : block_state) (inp : Block) : Block :=
  let m0 := xorB inp (s.dk 0)
  let m9 := aesdec (aesdec (aesdec (aesdec (aesdec (aesdec (aesdec (aesdec
    (aesdec m0 (s.dk 1)) (s.dk 2)) (s.dk 3)) (s.dk 4)) (s.dk 5)) (s.dk 6))
    (s.dk 7)) (s.dk 8)) (s.dk 9)
  let mA :=
    if s.rounds ≠ 10 then
      let m11 := aesdec (aesdec m9 (s.dk 10)) (s.dk 11)
      if s.rounds = 14 then aesdec (aesdec m11 (s.dk 12)) (s.dk 13) else m11
    else m9
  aesdeclast mA (s.dk s.rounds)


/-! ### The equivalent inverse cipher round by round -/

theorem enclast_cancel (m k : Block) :
    xorB (aesenclast m k) k = shiftRows (subBytes m) :=
  xorB_cancel _ k (Ok_shiftRows (Ok_subBytes m))

theorem declast_cancel (x k : Block) (hx : Ok x) :
    aesdeclast (shiftRows (subBytes x)) k = xorB x k := by
  unfold aesdeclast
  rw [invShiftRows_shiftRows, invSubBytes_subBytes x hx]

theorem dec_step (v k : Block) :
    aesdec (shiftRows (subBytes (aesenc v k))) (aesimc k) = shiftRows (subBytes v) := by
  unfold aesenc aesdec aesimc
  rw [invShiftRows_shiftRows]
  rw [invSubBytes_subBytes _ (Ok_xorB _ _)]
  rw [invMixColumns_xorB]
  rw [xorB_cancel _ _ (Ok_invMixColumns _)]
  rw [invMixColumns_mixColumns _ (Ok_shiftRows (Ok_subBytes v))]

/-- The nested `_mm_aesenc_si128` calls of `block_encrypt_aesni` as a fold
over the middle round keys. -/
def encChain (m : Block) (ks : List Block) : Block := ks.foldl aesenc m

/-- The nested `_mm_aesdec_si128` calls of `block_decrypt_aesni` as a fold. -/
def decChain (m : Block) (ks : List Block) : Block := ks.foldl aesdec m

theorem encChain_cons (m k : Block) (t : List Block) :
    encChain m (k :: t) = encChain (aesenc m k) t := rfl

theorem decChain_append (x : Block) (l1 l2 : List Block) :
    decChain x (l1 ++ l2) = decChain (decChain x l1) l2 := by
  simp [decChain, List.foldl_append]

theorem decChain_single (x a : Block) : decChain x [a] = aesdec x a := rfl

theorem chain_inv : ∀ (ks : List Block) (m : Block),
    decChain (shiftRows (subBytes (encChain m ks))) ((ks.map aesimc).reverse) =
      shiftRows (subBytes m) := by
  intro ks
  induction ks with
  | nil => intro m; rfl
  | cons k t ih =>
    intro m
    rw [encChain_cons, List.map_cons, List.reverse_cons, decChain_append,
      ih (aesenc m k), decChain_single, dec_step]


theorem roundtrip10 (ek : Nat → Block) (p : Block) (hp : Ok p) :
    block_decrypt_aesni ⟨ek, aes_key_setup_dec ek 10, 10⟩
      (block_encrypt_aesni ⟨ek, aes_key_setup_dec ek 10, 10⟩ p) = p := by
  have hd0 : aes_key_setup_dec ek 10 0 = ek 10 := by simp [aes_key_setup_dec]
  have hdN : aes_key_setup_dec ek 10 10 = ek 0 := by simp [aes_key_setup_dec]
  have hd1 : aes_key_setup_dec ek 10 1 = aesimc (ek 9) := by simp [aes_key_setup_dec]
  have hd2 : aes_key_setup_dec ek 10 2 = aesimc (ek 8) := by simp [aes_key_setup_dec]
  have hd3 : aes_key_setup_dec ek 10 3 = aesimc (ek 7) := by simp [aes_key_setup_dec]
  have hd4 : aes_key_setup_dec ek 10 4 = aesimc (ek 6) := by simp [aes_key_setup_dec]
  have hd5 : aes_key_setup_dec ek 10 5 = aesimc (ek 5) := by simp [aes_key_setup_dec]
  have hd6 : aes_key_setup_dec ek 10 6 = aesimc (ek 4) := by simp [aes_key_setup_dec]
  have hd7 : aes_key_setup_dec ek 10 7 = aesimc (ek 3) := by simp [aes_key_setup_dec]
  have hd8 : aes_key_setup_dec ek 10 8 = aesimc (ek 2) := by simp [aes_key_setup_dec]
  have hd9 : aes_key_setup_dec ek 10 9 = aesimc (ek 1) := by simp [aes_key_setup_dec]
  have hE : block_encrypt_aesni ⟨ek, aes_key_setup_dec ek 10, 10⟩ p =
      aesenclast (encChain (xorB p (ek 0))
        [ek 1, ek 2, ek 3, ek 4, ek 5, ek 6, ek 7, ek 8, ek 9]) (ek 10) := by
    simp [block_encrypt_aesni, encChain]
  have hD : ∀ c, block_decrypt_aesni ⟨ek, aes_key_setup_dec ek 10, 10⟩ c =
      aesdeclast (decChain (xorB c (aes_key_setup_dec ek 10 0))
        [aes_key_setup_dec ek 10 1, aes_key_setup_dec ek 10 2, aes_key_setup_dec ek 10 3,
         aes_key_setup_dec ek 10 4, aes_key_setup_dec ek 10 5, aes_key_setup_dec ek 10 6,
         aes_key_setup_dec ek 10 7, aes_key_setup_dec ek 10 8, aes_key_setup_dec ek 10 9])
        (aes_key_setup_dec ek 10 10) := by
    intro c
    simp [block_decrypt_aesni, decChain]
  rw [hE, hD, hd0, hdN, hd1, hd2, hd3, hd4, hd5, hd6, hd7, hd8, hd9]
  rw [enclast_cancel]
  rw [show [aesimc (ek 9), aesimc (ek 8), aesimc (ek 7), aesimc (ek 6), aesimc (ek 5),
      aesimc (ek 4), aesimc (ek 3), aesimc (ek 2), aesimc (ek 1)] =
      (([ek 1, ek 2, ek 3, ek 4, ek 5, ek 6, ek 7, ek 8, ek 9]).map aesimc).reverse from rfl]
  rw [chain_inv]
  rw [declast_cancel _ _ (Ok_xorB p (ek 0))]
  rw [xorB_cancel p (ek 0) hp]


theorem roundtrip12 (ek : Nat → Block) (p : Block) (hp : Ok p) :
    block_decrypt_aesni ⟨ek, aes_key_setup_dec ek 12, 12⟩
      (block_encrypt_aesni ⟨ek, aes_key_setup_dec ek 12, 12⟩ p) = p := by
  have hd0 : aes_key_setup_dec ek 12 0 = ek 12 := by simp [aes_key_setup_dec]
  have hdN : aes_key_setup_dec ek 12 12 = ek 0 := by simp [aes_key_setup_dec]
  have hd1 : aes_key_setup_dec ek 12 1 = aesimc (ek 11) := by simp [aes_key_setup_dec]
  have hd2 : aes_key_setup_dec ek 12 2 = aesimc (ek 10) := by simp [aes_key_setup_dec]
  have hd3 : aes_key_setup_dec ek 12 3 = aesimc (ek 9) := by simp [aes_key_setup_dec]
  have hd4 : aes_key_setup_dec ek 12 4 = aesimc (ek 8) := by simp [aes_key_setup_dec]
  have hd5 : aes_key_setup_dec ek 12 5 = aesimc (ek 7) := by simp [aes_key_setup_dec]
  have hd6 : aes_key_setup_dec ek 12 6 = aesimc (ek 6) := by simp [aes_key_setup_dec]
  have hd7 : aes_key_setup_dec ek 12 7 = aesimc (ek 5) := by simp [aes_key_setup_dec]
  have hd8 : aes_key_setup_dec ek 12 8 = aesimc (ek 4) := by simp [aes_key_setup_dec]
  have hd9 : aes_key_setup_dec ek 12 9 = aesimc (ek 3) := by simp [aes_key_setup_dec]
  have hd10 : aes_key_setup_dec ek 12 10 = aesimc (ek 2) := by simp [aes_key_setup_dec]
  have hd11 : aes_key_setup_dec ek 12 11 = aesimc (ek 1) := by simp [aes_key_setup_dec]
  have hE : block_encrypt_aesni ⟨ek, aes_key_setup_dec ek 12, 12⟩ p =
      aesenclast (encChain (xorB p (ek 0))
        [ek 1, ek 2, ek 3, ek 4, ek 5, ek 6, ek 7, ek 8, ek 9, ek 10, ek 11]) (ek 12) := by
    simp [block_encrypt_aesni, encChain]
  have hD : ∀ c, block_decrypt_aesni ⟨ek, aes_key_setup_dec ek 12, 12⟩ c =
      aesdeclast (decChain (xorB c (aes_key_setup_dec ek 12 0))
        [aes_key_setup_dec ek 12 1, aes_key_setup_dec ek 12 2, aes_key_setup_dec ek 12 3, aes_key_setup_dec ek 12 4, aes_key_setup_dec ek 12 5, aes_key_setup_dec ek 12 6, aes_key_setup_dec ek 12 7, aes_key_setup_dec ek 12 8, aes_key_setup_dec ek 12 9, aes_key_setup_dec ek 12 10, aes_key_setup_dec ek 12 11])
        (aes_key_setup_dec ek 12 12) := by
    intro c
    simp [block_decrypt_aesni, decChain]
  rw [hE, hD, hd0, hdN, hd1, hd2, hd3, hd4, hd5, hd6, hd7, hd8, hd9, hd10, hd11]
  rw [enclast_cancel]
  rw [show [aesimc (ek 11), aesimc (ek 10), aesimc (ek 9), aesimc (ek 8), aesimc (ek 7), aesimc (ek 6), aesimc (ek 5), aesimc (ek 4), aesimc (ek 3), aesimc (ek 2), aesimc (ek 1)] =
      (([ek 1, ek 2, ek 3, ek 4, ek 5, ek 6, ek 7, ek 8, ek 9, ek 10, ek 11]).map aesimc).reverse from rfl]
  rw [chain_inv]
  rw [declast_cancel _ _ (Ok_xorB p (ek 0))]
  rw [xorB_cancel p (ek 0) hp]

theorem roundtrip14 (ek : Nat → Block) (p : Block) (hp : Ok p) :
    block_decrypt_aesni ⟨ek, aes_key_setup_dec ek 14, 14⟩
      (block_encrypt_aesni ⟨ek, aes_key_setup_dec ek 14, 14⟩ p) = p := by
  have hd0 : aes_key_setup_dec ek 14 0 = ek 14 := by simp [aes_key_setup_dec]
  have hdN : aes_key_setup_dec ek 14 14 = ek 0 := by simp [aes_key_setup_dec]
  have hd1 : aes_key_setup_dec ek 14 1 = aesimc (ek 13) := by simp [aes_key_setup_dec]
  have hd2 : aes_key_setup_dec ek 14 2 = aesimc (ek 12) := by simp [aes_key_setup_dec]
  have hd3 : aes_key_setup_dec ek 14 3 = aesimc (ek 11) := by simp [aes_key_setup_dec]
  have hd4 : aes_key_setup_dec ek 14 4 = aesimc (ek 10) := by simp [aes_key_setup_dec]
  have hd5 : aes_key_setup_dec ek 14 5 = aesimc (ek 9) := by simp [aes_key_setup_dec]
  have hd6 : aes_key_setup_dec ek 14 6 = aesimc (ek 8) := by simp [aes_key_setup_dec]
  have hd7 : aes_key_setup_dec ek 14 7 = aesimc (ek 7) := by simp [aes_key_setup_dec]
  have hd8 : aes_key_setup_dec ek 14 8 = aesimc (ek 6) := by simp [aes_key_setup_dec]
  have hd9 : aes_key_setup_dec ek 14 9 = aesimc (ek 5) := by simp [aes_key_setup_dec]
  have hd10 : aes_key_setup_dec ek 14 10 = aesimc (ek 4) := by simp [aes_key_setup_dec]
  have hd11 : aes_key_setup_dec ek 14 11 = aesimc (ek 3) := by simp [aes_key_setup_dec]
  have hd12 : aes_key_setup_dec ek 14 12 = aesimc (ek 2) := by simp [aes_key_setup_dec]
  have hd13 : aes_key_setup_dec ek 14 13 = aesimc (ek 1) := by simp [aes_key_setup_dec]
  have hE : block_encrypt_aesni ⟨ek, aes_key_setup_dec ek 14, 14⟩ p =
      aesenclast (encChain (xorB p (ek 0))
        [ek 1, ek 2, ek 3, ek 4, ek 5, ek 6, ek 7, ek 8, ek 9, ek 10, ek 11, ek 12, ek 13]) (ek 14) := by
    simp [block_encrypt_aesni, encChain]
  have hD : ∀ c, block_decrypt_aesni ⟨ek, aes_key_setup_dec ek 14, 14⟩ c =
      aesdeclast (decChain (xorB c (aes_key_setup_dec ek 14 0))
        [aes_key_setup_dec ek 14 1, aes_key_setup_dec ek 14 2, aes_key_setup_dec ek 14 3, aes_key_setup_dec ek 14 4, aes_key_setup_dec ek 14 5, aes_key_setup_dec ek 14 6, aes_key_setup_dec ek 14 7, aes_key_setup_dec ek 14 8, aes_key_setup_dec ek 14 9, aes_key_setup_dec ek 14 10, aes_key_setup_dec ek 14 11, aes_key_setup_dec ek 14 12, aes_key_setup_dec ek 14 13])
        (aes_key_setup_dec ek 14 14) := by
    intro c
    simp [block_decrypt_aesni, decChain]
  rw [hE, hD, hd0, hdN, hd1, hd2, hd3, hd4, hd5, hd6, hd7, hd8, hd9, hd10, hd11, hd12, hd13]
  rw [enclast_cancel]
  rw [show [aesimc (ek 13), aesimc (ek 12), aesimc (ek 11), aesimc (ek 10), aesimc (ek 9), aesimc (ek 8), aesimc (ek 7), aesimc (ek 6), aesimc (ek 5), aesimc (ek 4), aesimc (ek 3), aesimc (ek 2), aesimc (ek 1)] =
      (([ek 1, ek 2, ek 3, ek 4, ek 5, ek 6, ek 7, ek 8, ek 9, ek 10, ek 11, ek 12, ek 13]).map aesimc).reverse from rfl]
  rw [chain_inv]
  rw [declast_cancel _ _ (Ok_xorB p (ek 0))]
  rw [xorB_cancel p (ek 0) hp]


/-! ### Claim theorems for the cipher engine -/

/-- C1: for every supported key (16, 24, or 32 bytes, the only lengths for
which `block_init_aesni` produces a cipher context) and every 16-byte block
`p`, encrypting `p` with the derived schedule and then decrypting the result
with the same schedule yields `p` back. -/
theorem c1_encrypt_then_decrypt (key : Nat → Nat) (keylen : Nat) (s : block_state)
    (hs : block_init_aesni key keylen = some s) (p : Block) (hp : Ok p) :
    block_decrypt_aesni s (block_encrypt_aesni s p) = p := by
  by_cases h16 : keylen = 16
  · subst h16
    have h := hs
    rw [show block_init_aesni key 16 = some ⟨aes_key_setup_enc key 16,
      aes_key_setup_dec (aes_key_setup_enc key 16) 10, 10⟩ from rfl] at h
    injection h with h2
    rw [← h2]
    exact roundtrip10 _ p hp
  · by_cases h24 : keylen = 24
    · subst h24
      have h := hs
      rw [show block_init_aesni key 24 = some ⟨aes_key_setup_enc key 24,
        aes_key_setup_dec (aes_key_setup_enc key 24) 12, 12⟩ from rfl] at h
      injection h with h2
      rw [← h2]
      exact roundtrip12 _ p hp
    · by_cases h32 : keylen = 32
      · subst h32
        have h := hs
        rw [show block_init_aesni key 32 = some ⟨aes_key_setup_enc key 32,
          aes_key_setup_dec (aes_key_setup_enc key 32) 14, 14⟩ from rfl] at h
        injection h with h2
        rw [← h2]
        exact roundtrip14 _ p hp
      · rw [block_init_aesni, if_neg h16, if_neg h24, if_neg h32] at hs
        exact absurd hs (by simp)

theorem c1_encrypt_then_decrypt_witness :
    block_init_aesni (fun _ => 0) 16 = some ⟨aes_key_setup_enc (fun _ => 0) 16,
      aes_key_setup_dec (aes_key_setup_enc (fun _ => 0) 16) 10, 10⟩ ∧
    Ok zeroB ∧
    block_decrypt_aesni ⟨aes_key_setup_enc (fun _ => 0) 16,
        aes_key_setup_dec (aes_key_setup_enc (fun _ => 0) 16) 10, 10⟩
      (block_encrypt_aesni ⟨aes_key_setup_enc (fun _ => 0) 16,
        aes_key_setup_dec (aes_key_setup_enc (fun _ => 0) 16) 10, 10⟩ zeroB) = zeroB :=
  ⟨rfl, by decide,
    c1_encrypt_then_decrypt (fun _ => 0) 16 _ rfl zeroB (by decide)⟩

/-- The explicit reverse-and-invert description of the decryption schedule,
against which `aes_key_setup_dec` is checked. -/
theorem setup_dec_spec (ek : Nat → Block) (r : Nat) (j : Nat) (hj : j ≤ r) :
    aes_key_setup_dec ek r j =
      if j = 0 ∨ j = r then ek (r - j) else aesimc (ek (r - j)) := by
  unfold aes_key_setup_dec
  by_cases h0 : j = 0
  · subst h0; simp
  · by_cases hr : j = r
    · subst hr; simp [h0]
    · simp [h0, hr]

/-- C2: for every supported key, the decryption round-key sequence is the
encryption sequence in reverse order with InvMixColumns applied to every
round key except the first and the last, which are copied unchanged. -/
theorem c2_dec_schedule (key : Nat → Nat) (keylen : Nat) (s : block_state)
    (hs : block_init_aesni key keylen = some s) :
    ∀ j, j ≤ s.rounds →
      s.dk j = if j = 0 ∨ j = s.rounds then s.ek (s.rounds - j)
               else aesimc (s.ek (s.rounds - j)) := by
  by_cases h16 : keylen = 16
  · subst h16
    have h := hs
    rw [show block_init_aesni key 16 = some ⟨aes_key_setup_enc key 16,
      aes_key_setup_dec (aes_key_setup_enc key 16) 10, 10⟩ from rfl] at h
    injection h with h2
    rw [← h2]
    exact fun j hj => setup_dec_spec _ 10 j hj
  · by_cases h24 : keylen = 24
    · subst h24
      have h := hs
      rw [show block_init_aesni key 24 = some ⟨aes_key_setup_enc key 24,
        aes_key_setup_dec (aes_key_setup_enc key 24) 12, 12⟩ from rfl] at h
      injection h with h2
      rw [← h2]
      exact fun j hj => setup_dec_spec _ 12 j hj
    · by_cases h32 : keylen = 32
      · subst h32
        have h := hs
        rw [show block_init_aesni key 32 = some ⟨aes_key_setup_enc key 32,
          aes_key_setup_dec (aes_key_setup_enc key 32) 14, 14⟩ from rfl] at h
        injection h with h2
        rw [← h2]
        exact fun j hj => setup_dec_spec _ 14 j hj
      · rw [block_init_aesni, if_neg h16, if_neg h24, if_neg h32] at hs
        exact absurd hs (by simp)

theorem c2_dec_schedule_witness :
    block_init_aesni (fun _ => 0) 16 = some ⟨aes_key_setup_enc (fun _ => 0) 16,
      aes_key_setup_dec (aes_key_setup_enc (fun _ => 0) 16) 10, 10⟩ ∧
    3 ≤ (⟨aes_key_setup_enc (fun _ => 0) 16,
      aes_key_setup_dec (aes_key_setup_enc (fun _ => 0) 16) 10, 10⟩ : block_state).rounds ∧
    (⟨aes_key_setup_enc (fun _ => 0) 16,
      aes_key_setup_dec (aes_key_setup_enc (fun _ => 0) 16) 10, 10⟩ : block_state).dk 3 =
      if 3 = 0 ∨ 3 = (10 : Nat) then aes_key_setup_enc (fun _ => 0) 16 (10 - 3)
      else aesimc (aes_key_setup_enc (fun _ => 0) 16 (10 - 3)) :=
  ⟨rfl, by decide, c2_dec_schedule (fun _ => 0) 16 _ rfl 3 (by decide)⟩

/-- C10: for every key length other than 16, 24 or 32 bytes, cipher-context
initialization fails (the C function bails out before deriving a schedule;
the embedding returns `none`). -/
theorem c10_invalid_keylen (key : Nat → Nat) (keylen : Nat)
    (h16 : keylen ≠ 16) (h24 : keylen ≠ 24) (h32 : keylen ≠ 32) :
    block_init_aesni key keylen = none := by
  simp [block_init_aesni, h16, h24, h32]

theorem c10_invalid_keylen_witness :
    (7 : Nat) ≠ 16 ∧ (7 : Nat) ≠ 24 ∧ (7 : Nat) ≠ 32 ∧
    block_init_aesni (fun _ => 0) 7 = none :=
  ⟨by decide, by decide, by decide,
    c10_invalid_keylen (fun _ => 0) 7 (by decide) (by decide) (by decide)⟩


/-! ### src/drmdecrypt.c : key extraction, packet decoding, synchronization

Packets and file contents are `List Nat` of byte values; reading uses
`List.getD` (the C code never reads out of bounds on the inputs the
theorems quantify over).  The decrypt length computation of
`decode_packet`, which in C is `int` arithmetic that can go negative, is
embedded as `Int` with truncating division. -/

/-- `PACKETSIZE` of the C source: one transport-stream packet. -/
def PACKETSIZE : Nat := 188

/-- `BLOCK_SIZE` of the C source: one AES block. -/
def BLOCK_SIZE : Nat := 16

/-- The key-byte reordering loop of `readdrmkey`: sixteen reads starting at
file offset 8, byte `j` stored at `drmkey[(j & 0xC) + (3 - (j & 3))]`.  The
key buffer is a byte array, embedded as a function updated pointwise. -/
def readdrmkey_fun (c : List Nat) : Nat → Nat :=
  (List.range 16).foldl
    (fun key j =>
      Function.update key ((j &&& 0xC) + (3 - (j &&& 3))) (c.getD (8 + j) 0))
    (fun _ => 0)

/-- The sixteen bytes at `l[off .. off+15]` as a `Block`. -/
def listToBlock (l : List Nat) : Block :=
  ⟨l.getD 0 0, l.getD 1 0, l.getD 2 0, l.getD 3 0,
   l.getD 4 0, l.getD 5 0, l.getD 6 0, l.getD 7 0,
   l.getD 8 0, l.getD 9 0, l.getD 10 0, l.getD 11 0,
   l.getD 12 0, l.getD 13 0, l.getD 14 0, l.getD 15 0⟩

/-- A `Block` back as a byte list. -/
def blockToList (b : Block) : List Nat :=
  [b.b0, b.b1, b.b2, b.b3, b.b4, b.b5, b.b6, b.b7,
   b.b8, b.b9, b.b10, b.b11, b.b12, b.b13, b.b14, b.b15]

/-- One 16-byte block decrypted through the hardware backend. -/
def decryptBlockList (s : block_state) (l : List Nat) : List Nat :=
  blockToList (block_decrypt_aesni s (listToBlock l))

/-- The `n` bytes of `l` starting at `off`. -/
def getSlice (l : List Nat) (off n : Nat) : List Nat := (l.drop off).take n

/-- `l` with the bytes starting at `off` replaced by `r`. -/
def setSlice (l : List Nat) (off : Nat) (r : List Nat) : List Nat :=
  l.take off ++ r ++ l.drop (off + r.length)

/-- The decryption loop of `decrypt_aes128cbc`: `k` consecutive 16-byte
blocks read from `data` starting at `off`, each decrypted independently
(the routine never chains blocks despite its name), concatenated. -/
def decBlocks (s : block_state) (data : List Nat) : Nat → Nat → List Nat
  | _, 0 => []
  | off, k + 1 =>
      decryptBlockList s (getSlice data off 16) ++ decBlocks s data (off + 16) k

/-- `decrypt_aes128cbc` of src/drmdecrypt.c: fails (returns 1, output
untouched) unless `len` is a multiple of `BLOCK_SIZE`; otherwise decrypts
`len/16` whole blocks of `pin` starting at `off` into the same positions of
`pout`.  `len` is C `int` arithmetic, hence `Int`; the C loop
`for(i=0; i<len; i+=16)` runs `len.toNat / 16` times. -/
def decrypt_aes128cbc (s : block_state) (pin : List Nat) (off : Nat) (len : Int)
    (pout : List Nat) : Nat × List Nat :=
  if Int.tmod len 16 ≠ 0 then (1, pout)
  else (0, setSlice pout off (decBlocks s pin off (len.toNat / 16)))

/-- The payload offset computed by `decode_packet`: 4, plus
`data[4] + 1` when the adaptation-field bit (byte 3, mask 0x20) is set. -/
def decode_offset (data : List Nat) : Nat :=
  if data.getD 3 0 &&& 0x20 ≠ 0 then 4 + (data.getD 4 0 + 1) else 4

/-- The length argument `((PACKETSIZE - offset)/BLOCK_SIZE)*BLOCK_SIZE`
passed by `decode_packet` to `decrypt_aes128cbc`, as C `int` arithmetic. -/
def decode_declen (data : List Nat) : Int :=
  Int.tdiv (188 - (decode_offset data : Int)) 16 * 16

/-- `decode_packet` of src/drmdecrypt.c.  Returns the C result code and the
packet contents after the call (the scratch copy written back by the final
`memcpy`): 1 and the unchanged packet when the sync byte is wrong or the
scrambling-control bits are neither 11 nor 10; otherwise 0 and the packet
with the scrambling bits cleared and the whole payload blocks decrypted. -/
def decode_packet (s : block_state) (data : List Nat) : Nat × List Nat :=
  if data.getD 0 0 ≠ 0x47 then (1, data)
  else if data.getD 3 0 &&& 0xC0 ≠ 0xC0 ∧ data.getD 3 0 &&& 0xC0 ≠ 0x80 then (1, data)
  else
    let offset := decode_offset data
    let tmp := data.set 3 (data.getD 3 0 &&& 0x3F)
    let r := decrypt_aes128cbc s data offset (decode_declen data) tmp
    (0, r.2)

/-- The three-marker sync condition of `decryptsrf` at offset `i`. -/
def syncCond (w : List Nat) (i : Nat) : Prop :=
  w.getD i 0 = 0x47 ∧ w.getD (i + 188) 0 = 0x47 ∧ w.getD (i + 376) 0 = 0x47

instance (w : List Nat) (i : Nat) : Decidable (syncCond w i) := by
  unfold syncCond; infer_instance

/-- The scan loop of `decryptsrf`: the first offset `i` with three aligned
sync markers, scanning `i < length - 2*PACKETSIZE`. -/
def findSyncFrom (w : List Nat) : Nat → Nat → Option Nat
  | _, 0 => none
  | i, fuel + 1 => if syncCond w i then some i else findSyncFrom w (i + 1) fuel

/-- Scan one window for the packet alignment. -/
def findSync (w : List Nat) : Option Nat := findSyncFrom w 0 (w.length - 376)

/-- Outcome of the synchronization search: locked at an offset after a
number of reads, or no sync found after the reads used. -/
inductive SyncResult where
  | locked (readsUsed : Nat) (offset : Nat)
  | noSyncFound (readsUsed : Nat)
deriving DecidableEq

/-- One attempt of the retry loop of `decryptsrf`: scan the window of this
attempt; lock on a found offset, otherwise continue with the rest of the
loop. -/
def syncStep (f : Nat → List Nat) (attempt : Nat) (rest : SyncResult) : SyncResult :=
  match findSync (f attempt) with
  | some i => .locked (attempt + 1) i
  | none => rest

/-- The retry loop of `decryptsrf` (`while(sync_find == 0 && retries-- > 0)`):
each attempt performs one `pbread` (window `f attempt`) and one scan;
the first argument is the remaining retry budget. -/
def syncSearchAux (f : Nat → List Nat) : Nat → Nat → SyncResult
  | 0, attempt => .noSyncFound attempt
  | r + 1, attempt => syncStep f attempt (syncSearchAux f r (attempt + 1))

/-- The synchronization search with the fixed retry budget of 10. -/
def syncSearch (f : Nat → List Nat) : SyncResult := syncSearchAux f 10 0

/-- The per-recording loop of `main`
(`do { if(decryptsrf(...) != 0) break; } while(++optind < argc);`):
returns the recordings actually attempted, stopping after the first
failure. -/
def main_loop (run : α → Nat) : List α → List α
  | [] => []
  | r :: rs => if run r ≠ 0 then [r] else r :: main_loop run rs


/-! ### Packet decoding lemmas -/

theorem decryptBlockList_length (s : block_state) (l : List Nat) :
    (decryptBlockList s l).length = 16 := rfl

theorem decBlocks_length (s : block_state) (data : List Nat) :
    ∀ (k off : Nat), (decBlocks s data off k).length = 16 * k := by
  intro k
  induction k with
  | zero => intro off; rfl
  | succ n ih =>
    intro off
    show (decryptBlockList s (getSlice data off 16) ++ decBlocks s data (off + 16) n).length
      = 16 * (n + 1)
    rw [List.length_append, decryptBlockList_length, ih]
    omega

theorem setSlice_length (l r : List Nat) (off : Nat) (h : off + r.length ≤ l.length) :
    (setSlice l off r).length = l.length := by
  simp [setSlice]
  omega

theorem setSlice_nil (l : List Nat) (off : Nat) : setSlice l off [] = l := by
  simp [setSlice]

theorem setSlice_getD_lt (l r : List Nat) (off i : Nat) (hi : i < off) (hil : i < l.length) :
    (setSlice l off r).getD i 0 = l.getD i 0 := by
  unfold setSlice
  rw [List.getD_append _ _ 0 i (by simp [List.length_take]; omega)]
  rw [List.getD_append _ _ 0 i (by simp [List.length_take]; omega)]
  simp [List.getD_eq_getElem?_getD, List.getElem?_take, hi]

theorem setSlice_getD_ge (l r : List Nat) (off i : Nat) (hoff : off ≤ l.length)
    (hi : off + r.length ≤ i) :
    (setSlice l off r).getD i 0 = l.getD i 0 := by
  unfold setSlice
  have ht : (l.take off ++ r).length = off + r.length := by
    simp [List.length_take]; omega
  rw [List.getD_append_right _ _ 0 i (by rw [ht]; omega), ht]
  simp only [List.getD_eq_getElem?_getD, List.getElem?_drop]
  have he : off + r.length + (i - (off + r.length)) = i := by omega
  rw [he]

theorem declen_toNat (data : List Nat) (h : decode_offset data ≤ 188) :
    (decode_declen data).toNat = (188 - decode_offset data) / 16 * 16 := by
  unfold decode_declen
  have h1 : (188 : Int) - (decode_offset data : Int) =
      ((188 - decode_offset data : Nat) : Int) := by omega
  rw [h1]
  have h2 : Int.tdiv ((188 - decode_offset data : Nat) : Int) (16 : Int) =
      (((188 - decode_offset data) / 16 : Nat) : Int) := rfl
  rw [h2]
  omega

theorem declen_toNat_zero (data : List Nat) (h : 188 ≤ decode_offset data) :
    (decode_declen data).toNat = 0 := by
  unfold decode_declen
  have h1 : (188 : Int) - (decode_offset data : Int) =
      -(((decode_offset data - 188 : Nat)) : Int) := by omega
  rw [h1, Int.neg_tdiv]
  have h2 : Int.tdiv (((decode_offset data - 188 : Nat)) : Int) (16 : Int) =
      (((decode_offset data - 188) / 16 : Nat) : Int) := rfl
  rw [h2]
  omega

/-- On a valid scrambled packet, `decode_packet` returns 0 and the packet
with the scrambling bits cleared and the whole payload blocks replaced by
their decryptions. -/
theorem decode_scrambled (s : block_state) (data : List Nat)
    (h0 : data.getD 0 0 = 0x47)
    (hscr : data.getD 3 0 &&& 0xC0 = 0xC0 ∨ data.getD 3 0 &&& 0xC0 = 0x80) :
    decode_packet s data =
      (0, setSlice (data.set 3 (data.getD 3 0 &&& 0x3F)) (decode_offset data)
        (decBlocks s data (decode_offset data) ((decode_declen data).toNat / 16))) := by
  have hmod : ¬ Int.tmod (decode_declen data) 16 ≠ 0 := by
    simp [decode_declen, Int.mul_tmod_left]
  unfold decode_packet
  rw [if_neg (show ¬data.getD 0 0 ≠ 0x47 by rw [h0]; decide)]
  rw [if_neg (show ¬(data.getD 3 0 &&& 0xC0 ≠ 0xC0 ∧ data.getD 3 0 &&& 0xC0 ≠ 0x80) by
    rcases hscr with h | h <;> rw [h] <;> decide)]
  simp only [decrypt_aes128cbc, if_neg hmod]


/-! ### Claim theorems for the packet codec -/

set_option maxRecDepth 40000 in
/-- C4 counterexample: on a valid packet with scrambling bits 11 and no
adaptation field, the byte count handed to the decryption routine is
`((188-4)/16)*16 = 176`, not the 184 bytes the claim states (184 is not a
multiple of the block size; 11 whole blocks are 176 bytes). -/
theorem c4_counterexample :
    ((0x47 : Nat) :: 0 :: 0 :: 0xC0 :: List.replicate 184 0).length = 188 ∧
    ((0x47 : Nat) :: 0 :: 0 :: 0xC0 :: List.replicate 184 0).getD 0 0 = 0x47 ∧
    ((0x47 : Nat) :: 0 :: 0 :: 0xC0 :: List.replicate 184 0).getD 3 0 &&& 0xC0 = 0xC0 ∧
    ((0x47 : Nat) :: 0 :: 0 :: 0xC0 :: List.replicate 184 0).getD 3 0 &&& 0x20 = 0 ∧
    decode_declen ((0x47 : Nat) :: 0 :: 0 :: 0xC0 :: List.replicate 184 0) = 176 ∧
    decode_declen ((0x47 : Nat) :: 0 :: 0 :: 0xC0 :: List.replicate 184 0) ≠ 184 := by
  decide

/-- C4 (amended): on a 188-byte packet with sync byte 0x47, scrambling bits
11 and a clear adaptation-field bit, `decode_packet` decrypts exactly 176
bytes (11 whole 16-byte blocks) in place starting at offset 4, leaves the
final 8 bytes unchanged, and clears the scrambling-control bits in byte 3. -/
theorem c4_no_adaptation (s : block_state) (data : List Nat)
    (hlen : data.length = 188) (h0 : data.getD 0 0 = 0x47)
    (hscr : data.getD 3 0 &&& 0xC0 = 0xC0) (had : data.getD 3 0 &&& 0x20 = 0) :
    decode_packet s data =
      (0, setSlice (data.set 3 (data.getD 3 0 &&& 0x3F)) 4 (decBlocks s data 4 11)) ∧
    (decode_declen data).toNat = 176 ∧
    (∀ i, 180 ≤ i → i < 188 → (decode_packet s data).2.getD i 0 = data.getD i 0) ∧
    (decode_packet s data).2.getD 3 0 = data.getD 3 0 &&& 0x3F := by
  have hoff : decode_offset data = 4 := by
    unfold decode_offset
    rw [if_neg (show ¬(data.getD 3 0 &&& 0x20 ≠ 0) by rw [had]; decide)]
  have hlen2 : (decode_declen data).toNat = 176 := by
    rw [declen_toNat data (by rw [hoff]; norm_num), hoff]
  have hdec := decode_scrambled s data h0 (Or.inl hscr)
  rw [hoff, hlen2] at hdec
  rw [show (176 : Nat) / 16 = 11 from by norm_num] at hdec
  have hsetlen : (data.set 3 (data.getD 3 0 &&& 0x3F)).length = 188 := by simp [hlen]
  refine ⟨hdec, hlen2, ?_, ?_⟩
  · intro i h180 h188
    rw [hdec]
    show (setSlice (data.set 3 (data.getD 3 0 &&& 0x3F)) 4 (decBlocks s data 4 11)).getD i 0
      = data.getD i 0
    rw [setSlice_getD_ge _ _ 4 i (by rw [hsetlen]; norm_num)
      (by rw [decBlocks_length]; omega)]
    simp [List.getD_eq_getElem?_getD, List.getElem?_set_ne (show 3 ≠ i by omega)]
  · rw [hdec]
    show (setSlice (data.set 3 (data.getD 3 0 &&& 0x3F)) 4 (decBlocks s data 4 11)).getD 3 0
      = data.getD 3 0 &&& 0x3F
    rw [setSlice_getD_lt _ _ 4 3 (by norm_num) (by rw [hsetlen]; norm_num)]
    simp [List.getD_eq_getElem?_getD,
      List.getElem?_set_eq_of_lt _ (show 3 < data.length by rw [hlen]; norm_num)]

set_option maxRecDepth 40000 in
theorem c4_no_adaptation_witness :
    decode_packet ⟨fun _ => zeroB, fun _ => zeroB, 10⟩
        ((0x47 : Nat) :: 0 :: 0 :: 0xC0 :: List.replicate 184 0) =
      (0, setSlice (((0x47 : Nat) :: 0 :: 0 :: 0xC0 :: List.replicate 184 0).set 3
          (((0x47 : Nat) :: 0 :: 0 :: 0xC0 :: List.replicate 184 0).getD 3 0 &&& 0x3F)) 4
        (decBlocks ⟨fun _ => zeroB, fun _ => zeroB, 10⟩
          ((0x47 : Nat) :: 0 :: 0 :: 0xC0 :: List.replicate 184 0) 4 11)) ∧
    (decode_declen ((0x47 : Nat) :: 0 :: 0 :: 0xC0 :: List.replicate 184 0)).toNat = 176 ∧
    (decode_packet ⟨fun _ => zeroB, fun _ => zeroB, 10⟩
        ((0x47 : Nat) :: 0 :: 0 :: 0xC0 :: List.replicate 184 0)).2.getD 187 0 =
      ((0x47 : Nat) :: 0 :: 0 :: 0xC0 :: List.replicate 184 0).getD 187 0 ∧
    (decode_packet ⟨fun _ => zeroB, fun _ => zeroB, 10⟩
        ((0x47 : Nat) :: 0 :: 0 :: 0xC0 :: List.replicate 184 0)).2.getD 3 0 =
      ((0x47 : Nat) :: 0 :: 0 :: 0xC0 :: List.replicate 184 0).getD 3 0 &&& 0x3F := by
  obtain ⟨h1, h2, h3, h4⟩ := c4_no_adaptation ⟨fun _ => zeroB, fun _ => zeroB, 10⟩
    ((0x47 : Nat) :: 0 :: 0 :: 0xC0 :: List.replicate 184 0)
    (by decide) (by decide) (by decide) (by decide)
  exact ⟨h1, h2, h3 187 (by decide) (by decide), h4⟩


/-- C5: on a 188-byte scrambled packet with the adaptation-field bit set and
adaptation length byte `L` at offset 4, `decode_packet` uses payload offset
`4 + 1 + L` and decrypts in place exactly the whole 16-byte blocks between
that offset and byte 188, leaving trailing bytes unchanged; for `L = 10` it
decrypts 10 blocks (160 bytes) and leaves the final 13 bytes unchanged. -/
theorem c5_adaptation_blocks (s : block_state) (data : List Nat)
    (hlen : data.length = 188) (h0 : data.getD 0 0 = 0x47)
    (hscr : data.getD 3 0 &&& 0xC0 = 0xC0 ∨ data.getD 3 0 &&& 0xC0 = 0x80)
    (had : data.getD 3 0 &&& 0x20 ≠ 0)
    (hoffle : 4 + (data.getD 4 0 + 1) ≤ 188) :
    decode_packet s data =
      (0, setSlice (data.set 3 (data.getD 3 0 &&& 0x3F)) (4 + (data.getD 4 0 + 1))
        (decBlocks s data (4 + (data.getD 4 0 + 1))
          ((188 - (4 + (data.getD 4 0 + 1))) / 16))) ∧
    (∀ i, 4 + (data.getD 4 0 + 1) + 16 * ((188 - (4 + (data.getD 4 0 + 1))) / 16) ≤ i →
      i < 188 → (decode_packet s data).2.getD i 0 = data.getD i 0) ∧
    (data.getD 4 0 = 10 →
      4 + (data.getD 4 0 + 1) = 15 ∧ (188 - (4 + (data.getD 4 0 + 1))) / 16 = 10 ∧
      ∀ i, 175 ≤ i → i < 188 →
        (decode_packet s data).2.getD i 0 = data.getD i 0) := by
  have hoff : decode_offset data = 4 + (data.getD 4 0 + 1) := by
    unfold decode_offset
    rw [if_pos had]
  have hlen2 : (decode_declen data).toNat =
      (188 - (4 + (data.getD 4 0 + 1))) / 16 * 16 := by
    rw [declen_toNat data (by rw [hoff]; exact hoffle), hoff]
  have hblocks : (decode_declen data).toNat / 16 =
      (188 - (4 + (data.getD 4 0 + 1))) / 16 := by
    rw [hlen2, Nat.mul_div_cancel _ (by norm_num)]
  have hdec := decode_scrambled s data h0 hscr
  rw [hoff, hblocks] at hdec
  have hsetlen : (data.set 3 (data.getD 3 0 &&& 0x3F)).length = 188 := by simp [hlen]
  have htrail : ∀ i,
      4 + (data.getD 4 0 + 1) + 16 * ((188 - (4 + (data.getD 4 0 + 1))) / 16) ≤ i →
      i < 188 → (decode_packet s data).2.getD i 0 = data.getD i 0 := by
    intro i hbound h188
    rw [hdec]
    show (setSlice (data.set 3 (data.getD 3 0 &&& 0x3F)) (4 + (data.getD 4 0 + 1))
      (decBlocks s data (4 + (data.getD 4 0 + 1))
        ((188 - (4 + (data.getD 4 0 + 1))) / 16))).getD i 0 = data.getD i 0
    rw [setSlice_getD_ge _ _ _ i (by rw [hsetlen]; omega)
      (by rw [decBlocks_length]; omega)]
    simp [List.getD_eq_getElem?_getD, List.getElem?_set_ne (show 3 ≠ i by omega)]
  refine ⟨hdec, htrail, ?_⟩
  intro hL
  refine ⟨by rw [hL], by rw [hL], ?_⟩
  intro i h175 h188
  apply htrail i ?_ h188
  rw [hL]
  norm_num
  omega

set_option maxRecDepth 40000 in
theorem c5_adaptation_blocks_witness :
    decode_packet ⟨fun _ => zeroB, fun _ => zeroB, 10⟩
        ((0x47 : Nat) :: 0 :: 0 :: 0xA0 :: 10 :: List.replicate 183 0) =
      (0, setSlice (((0x47 : Nat) :: 0 :: 0 :: 0xA0 :: 10 :: List.replicate 183 0).set 3
          (((0x47 : Nat) :: 0 :: 0 :: 0xA0 :: 10 :: List.replicate 183 0).getD 3 0 &&& 0x3F))
        (4 + (((0x47 : Nat) :: 0 :: 0 :: 0xA0 :: 10 :: List.replicate 183 0).getD 4 0 + 1))
        (decBlocks ⟨fun _ => zeroB, fun _ => zeroB, 10⟩
          ((0x47 : Nat) :: 0 :: 0 :: 0xA0 :: 10 :: List.replicate 183 0)
          (4 + (((0x47 : Nat) :: 0 :: 0 :: 0xA0 :: 10 :: List.replicate 183 0).getD 4 0 + 1))
          ((188 - (4 + (((0x47 : Nat) :: 0 :: 0 :: 0xA0 :: 10 ::
            List.replicate 183 0).getD 4 0 + 1))) / 16))) ∧
    4 + (((0x47 : Nat) :: 0 :: 0 :: 0xA0 :: 10 :: List.replicate 183 0).getD 4 0 + 1) = 15 ∧
    (188 - (4 + (((0x47 : Nat) :: 0 :: 0 :: 0xA0 :: 10 ::
      List.replicate 183 0).getD 4 0 + 1))) / 16 = 10 ∧
    (decode_packet ⟨fun _ => zeroB, fun _ => zeroB, 10⟩
        ((0x47 : Nat) :: 0 :: 0 :: 0xA0 :: 10 :: List.replicate 183 0)).2.getD 180 0 =
      ((0x47 : Nat) :: 0 :: 0 :: 0xA0 :: 10 :: List.replicate 183 0).getD 180 0 := by
  obtain ⟨h1, _, h3⟩ := c5_adaptation_blocks ⟨fun _ => zeroB, fun _ => zeroB, 10⟩
    ((0x47 : Nat) :: 0 :: 0 :: 0xA0 :: 10 :: List.replicate 183 0)
    (by decide) (by decide) (by decide) (by decide) (by decide)
  obtain ⟨h4, h5, h6⟩ := h3 (by decide)
  exact ⟨h1, h4, h5, h6 180 (by decide) (by decide)⟩

set_option maxRecDepth 40000 in
/-- C6 counterexample: on a valid unscrambled packet (scrambling bits 00),
`decode_packet` does leave the packet unchanged, but it returns 1 — the same
status code the routine uses for failure — not the success code 0 used by the
decrypting path. -/
theorem c6_counterexample :
    (decode_packet ⟨fun _ => zeroB, fun _ => zeroB, 10⟩
      ((0x47 : Nat) :: 0 :: 0 :: 0 :: List.replicate 184 0)).1 = 1 ∧
    ¬ (decode_packet ⟨fun _ => zeroB, fun _ => zeroB, 10⟩
      ((0x47 : Nat) :: 0 :: 0 :: 0 :: List.replicate 184 0)).1 = 0 ∧
    (decode_packet ⟨fun _ => zeroB, fun _ => zeroB, 10⟩
      ((0x47 : Nat) :: 0 :: 0 :: 0 :: List.replicate 184 0)).2 =
      (0x47 : Nat) :: 0 :: 0 :: 0 :: List.replicate 184 0 := by
  refine ⟨by decide, by decide, by decide⟩

/-- C6 (amended): on a packet with sync byte 0x47 whose scrambling-control
bits are 00 or 01, `decode_packet` skips decryption and leaves the packet
byte-for-byte unchanged, returning the status value 1 (the same value the
routine uses for failures), not the success value 0. -/
theorem c6_skip_unscrambled (s : block_state) (data : List Nat)
    (h0 : data.getD 0 0 = 0x47)
    (hscr : data.getD 3 0 &&& 0xC0 = 0 ∨ data.getD 3 0 &&& 0xC0 = 0x40) :
    decode_packet s data = (1, data) := by
  unfold decode_packet
  rw [if_neg (show ¬data.getD 0 0 ≠ 0x47 by rw [h0]; decide)]
  rw [if_pos (show data.getD 3 0 &&& 0xC0 ≠ 0xC0 ∧ data.getD 3 0 &&& 0xC0 ≠ 0x80 by
    rcases hscr with h | h <;> rw [h] <;> exact ⟨by decide, by decide⟩)]

set_option maxRecDepth 40000 in
theorem c6_skip_unscrambled_witness :
    decode_packet ⟨fun _ => zeroB, fun _ => zeroB, 10⟩
      ((0x47 : Nat) :: 0 :: 0 :: 0x40 :: List.replicate 184 0) =
      (1, (0x47 : Nat) :: 0 :: 0 :: 0x40 :: List.replicate 184 0) :=
  c6_skip_unscrambled ⟨fun _ => zeroB, fun _ => zeroB, 10⟩
    ((0x47 : Nat) :: 0 :: 0 :: 0x40 :: List.replicate 184 0)
    (by decide) (Or.inr (by decide))

/-- C8: whatever the adaptation-field length byte, `decode_packet` writes
only inside the fixed 188-byte packet (the output always has length 188);
and when the computed payload offset `4 + 1 + L` reaches or exceeds 188, no
bytes are decrypted — the output is the input with only the
scrambling-control bits cleared. -/
theorem c8_in_bounds (s : block_state) (data : List Nat) (hlen : data.length = 188) :
    (decode_packet s data).2.length = 188 ∧
    (data.getD 0 0 = 0x47 →
     (data.getD 3 0 &&& 0xC0 = 0xC0 ∨ data.getD 3 0 &&& 0xC0 = 0x80) →
     data.getD 3 0 &&& 0x20 ≠ 0 →
     188 ≤ 4 + (data.getD 4 0 + 1) →
     (decode_packet s data).2 = data.set 3 (data.getD 3 0 &&& 0x3F)) := by
  constructor
  · by_cases hsync : data.getD 0 0 = 0x47
    · by_cases hscr : data.getD 3 0 &&& 0xC0 = 0xC0 ∨ data.getD 3 0 &&& 0xC0 = 0x80
      · rw [decode_scrambled s data hsync hscr]
        show (setSlice (data.set 3 (data.getD 3 0 &&& 0x3F)) (decode_offset data)
          (decBlocks s data (decode_offset data) ((decode_declen data).toNat / 16))).length
          = 188
        by_cases hbig : 188 ≤ decode_offset data
        · rw [declen_toNat_zero data hbig]
          simp [decBlocks, setSlice_nil, hlen]
        · push_neg at hbig
          have hr : 16 * ((188 - decode_offset data) / 16) ≤ 188 - decode_offset data := by
            rw [Nat.mul_comm]
            exact Nat.div_mul_le_self _ _
          rw [setSlice_length]
          · simp [hlen]
          · rw [decBlocks_length, declen_toNat data (by omega),
              Nat.mul_div_cancel _ (show (0 : Nat) < 16 by norm_num)]
            simp [hlen]
            omega
      · have heq : decode_packet s data = (1, data) := by
          unfold decode_packet
          rw [if_neg (show ¬data.getD 0 0 ≠ 0x47 from fun hne => hne hsync)]
          rw [if_pos ⟨fun h => hscr (Or.inl h), fun h => hscr (Or.inr h)⟩]
        rw [heq]
        exact hlen
    · have heq : decode_packet s data = (1, data) := by
        unfold decode_packet
        rw [if_pos hsync]
      rw [heq]
      exact hlen
  · intro h0 hscr had hbig
    have hoff : decode_offset data = 4 + (data.getD 4 0 + 1) := by
      unfold decode_offset
      rw [if_pos had]
    rw [decode_scrambled s data h0 hscr]
    show setSlice (data.set 3 (data.getD 3 0 &&& 0x3F)) (decode_offset data)
      (decBlocks s data (decode_offset data) ((decode_declen data).toNat / 16))
      = data.set 3 (data.getD 3 0 &&& 0x3F)
    rw [declen_toNat_zero data (by rw [hoff]; exact hbig)]
    simp [decBlocks, setSlice_nil]

set_option maxRecDepth 40000 in
theorem c8_in_bounds_witness :
    (decode_packet ⟨fun _ => zeroB, fun _ => zeroB, 10⟩
      ((0x47 : Nat) :: 0 :: 0 :: 0xE0 :: 200 :: List.replicate 183 0)).2.length = 188 ∧
    (decode_packet ⟨fun _ => zeroB, fun _ => zeroB, 10⟩
      ((0x47 : Nat) :: 0 :: 0 :: 0xE0 :: 200 :: List.replicate 183 0)).2 =
      ((0x47 : Nat) :: 0 :: 0 :: 0xE0 :: 200 :: List.replicate 183 0).set 3
        (((0x47 : Nat) :: 0 :: 0 :: 0xE0 :: 200 :: List.replicate 183 0).getD 3 0 &&& 0x3F) := by
  obtain ⟨h1, h2⟩ := c8_in_bounds ⟨fun _ => zeroB, fun _ => zeroB, 10⟩
    ((0x47 : Nat) :: 0 :: 0 :: 0xE0 :: 200 :: List.replicate 183 0) (by decide)
  exact ⟨h1, h2 (by decide) (Or.inl (by decide)) (by decide) (by decide)⟩


/-! ### Claim theorems for key provisioning -/

/-- C3: key extraction reads sixteen bytes starting at container offset 8
and places source byte `j` at key position `(j & 0xC) + (3 - (j & 3))`; in
particular source bytes `0..15` yield the key
`3,2,1,0,7,6,5,4,11,10,9,8,15,14,13,12`. -/
theorem c3_key_extraction (c : List Nat) (hlen : 24 ≤ c.length) :
    (∀ j, j < 16 →
      readdrmkey_fun c ((j &&& 0xC) + (3 - (j &&& 3))) = c.getD (8 + j) 0) ∧
    (List.range 16).map (readdrmkey_fun (List.replicate 8 0xAA ++ List.range 16)) =
      [3, 2, 1, 0, 7, 6, 5, 4, 11, 10, 9, 8, 15, 14, 13, 12] := by
  constructor
  · have hr : List.range 16 = [0, 1, 2, 3, 4, 5, 6, 7, 8, 9, 10, 11, 12, 13, 14, 15] := by
      decide
    intro j hj
    interval_cases j <;>
      simp +decide [readdrmkey_fun, hr, Function.update_apply]
  · decide

theorem c3_key_extraction_witness :
    readdrmkey_fun (List.replicate 8 0xAA ++ List.range 16)
      (((6 : Nat) &&& 0xC) + (3 - (6 &&& 3))) =
      (List.replicate 8 0xAA ++ List.range 16).getD 14 0 ∧
    (List.range 16).map (readdrmkey_fun (List.replicate 8 0xAA ++ List.range 16)) =
      [3, 2, 1, 0, 7, 6, 5, 4, 11, 10, 9, 8, 15, 14, 13, 12] :=
  ⟨(c3_key_extraction (List.replicate 8 0xAA ++ List.range 16) (by decide)).1 6 (by decide),
   (c3_key_extraction (List.replicate 8 0xAA ++ List.range 16) (by decide)).2⟩


/-! ### Claim theorems for the stream synchronizer and the orchestrator -/

theorem findSyncFrom_spec (w : List Nat) :
    ∀ (fuel i k : Nat), findSyncFrom w i fuel = some k →
      syncCond w k ∧ i ≤ k ∧ k < i + fuel ∧
        ∀ j, i ≤ j → j < k → ¬ syncCond w j := by
  intro fuel
  induction fuel with
  | zero =>
    intro i k h
    exact absurd h (by simp [findSyncFrom])
  | succ n ih =>
    intro i k h
    by_cases hc : syncCond w i
    · have he : some i = some k := by rw [← h]; simp [findSyncFrom, hc]
      injection he with he
      subst he
      exact ⟨hc, Nat.le_refl i, by omega, fun j hij hji => absurd (by omega : i < i) (by omega)⟩
    · have h' : findSyncFrom w (i + 1) n = some k := by
        rw [← h]; simp [findSyncFrom, hc]
      obtain ⟨hck, hik, hkb, hmin⟩ := ih (i + 1) k h'
      refine ⟨hck, by omega, by omega, fun j hij hjk => ?_⟩
      by_cases hji : j = i
      · rw [hji]; exact hc
      · exact hmin j (by omega) hjk

theorem findSync_some (w : List Nat) (k : Nat) (h : findSync w = some k) :
    syncCond w k ∧ ∀ j, j < k → ¬ syncCond w j := by
  unfold findSync at h
  obtain ⟨hck, _, _, hmin⟩ := findSyncFrom_spec w (w.length - 376) 0 k h
  exact ⟨hck, fun j hj => hmin j (Nat.zero_le j) hj⟩

set_option maxRecDepth 100000 in
theorem syncSearchAux_skip (f : Nat → List Nat) :
    ∀ (n a k i : Nat), k < n → (∀ m, m < k → findSync (f (a + m)) = none) →
      findSync (f (a + k)) = some i →
      syncSearchAux f n a = .locked (a + k + 1) i := by
  intro n
  induction n with
  | zero =>
    intro a k i hk _ _
    exact absurd hk (Nat.not_lt_zero k)
  | succ n ih =>
    intro a k i hk hnone hsome
    cases k with
    | zero =>
      have h0 : findSync (f a) = some i := by simpa using hsome
      show syncStep f a (syncSearchAux f n (a + 1)) = SyncResult.locked (a + 0 + 1) i
      unfold syncStep
      rw [h0]
    | succ m =>
      have h0 : findSync (f a) = none := by simpa using hnone 0 (Nat.succ_pos m)
      have hstep : syncSearchAux f (n + 1) a = syncSearchAux f n (a + 1) := by
        show syncStep f a (syncSearchAux f n (a + 1)) = _
        unfold syncStep
        rw [h0]
      have hnone' : ∀ j, j < m → findSync (f (a + 1 + j)) = none := by
        intro j hj
        have := hnone (j + 1) (by omega)
        rwa [show a + (j + 1) = a + 1 + j from by omega] at this
      have hsome' : findSync (f (a + 1 + m)) = some i := by
        rwa [show a + (m + 1) = a + 1 + m from by omega] at hsome
      rw [hstep, ih (a + 1) m i (by omega) hnone' hsome']
      congr 1
      omega

set_option maxRecDepth 100000 in
theorem syncSearchAux_fail (f : Nat → List Nat) :
    ∀ (n a : Nat), (∀ m, m < n → findSync (f (a + m)) = none) →
      syncSearchAux f n a = .noSyncFound (a + n) := by
  intro n
  induction n with
  | zero => intro a _; show SyncResult.noSyncFound a = _; rw [Nat.add_zero]
  | succ n ih =>
    intro a hnone
    have h0 : findSync (f a) = none := by simpa using hnone 0 (Nat.succ_pos n)
    have hstep : syncSearchAux f (n + 1) a = syncSearchAux f n (a + 1) := by
      show syncStep f a (syncSearchAux f n (a + 1)) = _
      unfold syncStep
      rw [h0]
    have hnone' : ∀ m, m < n → findSync (f (a + 1 + m)) = none := by
      intro m hm
      have := hnone (m + 1) (by omega)
      rwa [show a + (m + 1) = a + 1 + m from by omega] at this
    rw [hstep, ih (a + 1) hnone']
    congr 1
    omega

set_option maxRecDepth 100000 in
/-- C7: in the searching state, the synchronizer locks at exactly the
smallest offset of the first window containing three 188-spaced sync
markers, advancing the cursor there after one read per preceding
unsuccessful window; if no window scanned within the retry budget contains
one, it reports no-sync-found after exactly 10 reads. -/
theorem c7_sync_search (f : Nat → List Nat) :
    (∀ k i, k < 10 → (∀ m, m < k → findSync (f m) = none) →
      findSync (f k) = some i →
      syncSearch f = .locked (k + 1) i ∧ syncCond (f k) i ∧
        ∀ j, j < i → ¬ syncCond (f k) j) ∧
    ((∀ k, k < 10 → findSync (f k) = none) → syncSearch f = .noSyncFound 10) := by
  constructor
  · intro k i hk hnone hsome
    have h1 := syncSearchAux_skip f 10 0 k i hk
      (fun m hm => by simpa using hnone m hm) (by simpa using hsome)
    have h2 := findSync_some (f k) i hsome
    exact ⟨by simpa using h1, h2.1, h2.2⟩
  · intro hnone
    have := syncSearchAux_fail f 10 0 (fun m hm => by simpa using hnone m hm)
    simpa using this

set_option maxRecDepth 300000 in
set_option maxHeartbeats 1000000 in
theorem c7_sync_search_witness :
    syncSearch (fun _ => List.replicate 50 (0xAA : Nat) ++ 0x47 ::
        (List.replicate 187 0 ++ 0x47 :: (List.replicate 187 0 ++ [0x47]))) =
      .locked 1 50 ∧
    ¬ syncCond (List.replicate 50 (0xAA : Nat) ++ 0x47 ::
        (List.replicate 187 0 ++ 0x47 :: (List.replicate 187 0 ++ [0x47]))) 20 ∧
    syncSearch (fun _ => List.replicate 400 (0 : Nat)) = .noSyncFound 10 := by
  obtain ⟨hl, _, hmin⟩ := (c7_sync_search (fun _ => List.replicate 50 (0xAA : Nat) ++ 0x47 ::
      (List.replicate 187 0 ++ 0x47 :: (List.replicate 187 0 ++ [0x47])))).1 0 50
    (by decide) (fun m hm => absurd hm (Nat.not_lt_zero m)) (by decide)
  exact ⟨hl, hmin 20 (by decide),
    (c7_sync_search (fun _ => List.replicate 400 (0 : Nat))).2 (fun k _ => by decide)⟩

/-- C9 counterexample: with two recordings where the first fails, the
processing loop of `main` attempts only the first recording; the second is
never processed, contradicting the claim that the orchestrator proceeds to
the next recording after a hard failure. -/
theorem c9_counterexample :
    main_loop (fun _ => 1) [0, 1] = [(0 : Nat)] ∧
    main_loop (fun _ => 1) [(0 : Nat), 1] ≠ [0, 1] := by
  decide

/-- C9 (amended): a hard failure while processing a recording terminates the
whole loop — the recordings attempted are the successful prefix plus the
first failing recording; recordings after the first failure are never
processed. -/
theorem c9_main_loop_stops {α : Type} (run : α → Nat) (l : List α) :
    main_loop run l =
      l.takeWhile (fun r => run r == 0) ++ (l.dropWhile (fun r => run r == 0)).take 1 := by
  induction l with
  | nil => rfl
  | cons r rs ih =>
    by_cases h : run r = 0
    · have hb : (run r == 0) = true := by simpa using h
      simp [main_loop, h, List.takeWhile_cons, List.dropWhile_cons, hb, ih]
    · have hb : (run r == 0) = false := by simpa using h
      simp [main_loop, h, List.takeWhile_cons, List.dropWhile_cons, hb]

end Drm
